import Mathlib

/-!
Resolver callback and SQL statement builder of debefix.

A shallow embedding of `resolver_value.go` (package `debefix`) and of
`sql/generic/generator.go` (package `generic`).

Modelling conventions

* A Go `any` is a `Value`; the constructors list the dynamic types the two
  files distinguish.
* A Go `map[string]any` is a `GoMap`: `GoMap.nil` is the nil map, `GoMap.mk l`
  holds the entries `l`.  A Go map has pairwise distinct keys (`GoMap.WF`).
* `for k, v := range m` visits every entry exactly once in an order the
  language leaves unspecified.  Each loop over a map therefore takes a
  `RangeOrder`: the permutation of the entries that this run of the loop uses.
* A Go slice is a `List` (the nil slice and the empty slice are both `[]`).
* Go functions returning `(map, error)` return a pair
  `GoMap × Option GoError`; `none` is the nil error.
* Stateful collaborators (the sink behind `QueryInterface`, the placeholder
  provider, the callback) pass their state explicitly.
-/

namespace Debefix

/-! ## Values, errors, maps -/

/-- Go `error` values (non-nil); compared by identity of their content. -/
structure GoError where
  msg : String
deriving DecidableEq, Repr

/-- Dynamic values of Go type `any` that the code tells apart. -/
inductive Value where
  /-- untyped `nil` -/
  | null
  /-- unsigned integer literal such as `uint64(2)` -/
  | uint (n : Nat)
  /-- string literal -/
  | str (s : String)
  /-- boolean literal -/
  | bool (b : Bool)
  /-- pointer `*debefix.ResolveGenerate`, the type the type switch names -/
  | generate
  /-- struct `debefix.ResolveGenerate` held by value -/
  | generateStruct
  /-- struct `sql.NamedArg` built by `sql.Named(name, value)` -/
  | named (name : String) (value : Value)
deriving DecidableEq, Repr

/-- The type assertion `fv.(debefix.ResolveValue)`: `isResolveValue` has a value
receiver, so both `ResolveGenerate` and `*ResolveGenerate` implement it. -/
def Value.isResolveValue : Value → Bool
  | .generate => true
  | .generateStruct => true
  | _ => false

/-- The type switch case `*debefix.ResolveGenerate`. -/
def Value.isGeneratePtr : Value → Bool
  | .generate => true
  | _ => false

/-- Go `map[string]any`. -/
inductive GoMap where
  | nil
  | mk (entries : List (String × Value))
deriving DecidableEq, Repr

/-- The entries of a map; the nil map has none. -/
def GoMap.entries : GoMap → List (String × Value)
  | .nil => []
  | .mk l => l

/-- The keys of a map. -/
def GoMap.keys (m : GoMap) : List String := m.entries.map Prod.fst

/-- The map index expression `m[k]` with the comma-ok form. -/
def GoMap.get (m : GoMap) (k : String) : Option Value := m.entries.lookup k

/-- Go `len(m)`. -/
def GoMap.len (m : GoMap) : Nat := m.entries.length

/-- Well-formedness of the representation: keys are pairwise distinct. -/
def GoMap.WF (m : GoMap) : Prop := m.keys.Nodup

instance (m : GoMap) : Decidable m.WF := by
  unfold GoMap.WF; infer_instance

/-- The assignment `m[k] = v` on the entries of a non-nil map. -/
def setEntry : List (String × Value) → String → Value → List (String × Value)
  | [], k, v => [(k, v)]
  | (k', v') :: t, k, v => if k' = k then (k, v) :: t else (k', v') :: setEntry t k v

/-- The order in which one `range` loop visits the entries of a map. -/
structure RangeOrder where
  pick : List (String × Value) → List (String × Value)
  perm : ∀ l, (pick l).Perm l

/-- Visit the entries in the order of the representation. -/
def RangeOrder.declared : RangeOrder := ⟨fun l => l, fun l => List.Perm.refl l⟩

/-- Visit the entries in the opposite order. -/
def RangeOrder.reversed : RangeOrder := ⟨List.reverse, List.reverse_perm⟩

/-! ## resolver_value.go -/

/-- Interface `ResolveContext` over an implementation with state `κ`. -/
structure ResolveContext (κ : Type) where
  TableID : κ → String
  TableName : κ → String
  ResolveField : κ → String → Value → κ

structure defaultResolveContext where
  tableID : String
  tableName : String
  resolved : GoMap
deriving DecidableEq, Repr

def defaultResolveContext.TableID (d : defaultResolveContext) : String := d.tableID

def defaultResolveContext.TableName (d : defaultResolveContext) : String := d.tableName

def defaultResolveContext.ResolveField (d : defaultResolveContext) (fieldName : String)
    (value : Value) : defaultResolveContext :=
  let resolved := if d.resolved = GoMap.nil then GoMap.mk [] else d.resolved
  { d with resolved := GoMap.mk (setEntry resolved.entries fieldName value) }

/-- The type `*defaultResolveContext` as an implementation of `ResolveContext`. -/
def defaultResolveContext.iface : ResolveContext defaultResolveContext :=
  ⟨defaultResolveContext.TableID, defaultResolveContext.TableName,
    defaultResolveContext.ResolveField⟩

/-! ## generator.go: ResolverFunc -/

/-- The function type `ResolverDBCallback`; `σ` is the state the callback closes over. -/
abbrev ResolverDBCallback (σ : Type) :=
  String → GoMap → List String → σ → (GoMap × Option GoError) × σ

/-- One iteration of the loop of `ResolverFunc` (lines 20-29) on the pair
`(insertFields, returnFieldNames)`. -/
def classifyStep (acc : List (String × Value) × List String) (e : String × Value) :
    List (String × Value) × List String :=
  if e.2.isResolveValue then
    if e.2.isGeneratePtr then (acc.1, acc.2 ++ [e.1]) else acc
  else (setEntry acc.1 e.1 e.2, acc.2)

/-- The loop of `ResolverFunc` (lines 17-29): `insertFields` and `returnFieldNames`. -/
def classifyFields (order : RangeOrder) (fields : GoMap) :
    List (String × Value) × List String :=
  (order.pick fields.entries).foldl classifyStep ([], [])

/-- The function returned by `ResolverFunc callback`.  `ordFields` and `ordResolved`
are the orders of the loops over `fields` and over `resolved`.  The result is the
returned error, the context and the callback state after the call. -/
def ResolverFunc {σ κ : Type} (ordFields ordResolved : RangeOrder)
    (callback : ResolverDBCallback σ) (C : ResolveContext κ) (ctx : κ) (fields : GoMap)
    (s : σ) : Option GoError × κ × σ :=
  let cf := classifyFields ordFields fields
  let r := callback (C.TableName ctx) (GoMap.mk cf.1) cf.2 s
  match r.1.2 with
  | some err => (some err, ctx, r.2)
  | none =>
    (none, (ordResolved.pick r.1.1.entries).foldl (fun c e => C.ResolveField c e.1 e.2) ctx, r.2)

/-! ## generator.go: SQLResolverDBCallback -/

/-- Interface `SQLPlaceholderProvider`: an object with state `State`, freshly created
in state `init`, whose method `Next` returns `(placeholder, argName)`. -/
structure SQLPlaceholderProvider where
  State : Type
  init : State
  Next : State → (String × String) × State

/-- Interface `SQLBuilder`. -/
structure SQLBuilder where
  CreatePlaceholderProvider : Unit → SQLPlaceholderProvider
  BuildInsertSQL : String → List String → List String → List String → String

/-- Interface `QueryInterface` over a sink with state `σ`. -/
structure QueryInterface (σ : Type) where
  Query : String → List String → List Value → σ → (GoMap × Option GoError) × σ

/-- The local variables of the loop of `SQLResolverDBCallback` (lines 55-70). -/
structure Collected (π : Type) where
  fieldNames : List String
  fieldPlaceholders : List String
  args : List Value
  provider : π

/-- The argument appended for a field value (lines 65-69): `sql.Named(argName, fv)` when
`argName` is not empty, `fv` itself otherwise. -/
def wrapArg (argName : String) (fv : Value) : Value :=
  if argName ≠ "" then Value.named argName fv else fv

/-- One iteration of the loop of `SQLResolverDBCallback` (lines 61-70). -/
def collectStep {π : Type} (next : π → (String × String) × π) (acc : Collected π)
    (e : String × Value) : Collected π :=
  let r := next acc.provider
  { fieldNames := acc.fieldNames ++ [e.1]
    fieldPlaceholders := acc.fieldPlaceholders ++ [r.1.1]
    args := acc.args ++ [wrapArg r.1.2 e.2]
    provider := r.2 }

/-- The loop of `SQLResolverDBCallback` (lines 55-70). -/
def collectFields (order : RangeOrder) (p : SQLPlaceholderProvider) (fields : GoMap) :
    Collected p.State :=
  (order.pick fields.entries).foldl (collectStep p.Next) ⟨[], [], [], p.init⟩

/-- Lines 55-74 of `SQLResolverDBCallback`: the loop, the statement built from its
outputs, and the call of `db.Query`; `order` is the order of the loop over `fields`. -/
def queryCall {σ : Type} (order : RangeOrder) (db : QueryInterface σ) (sqlBuilder : SQLBuilder)
    (tableName : String) (fields : GoMap) (returnFieldNames : List String) (s : σ) :
    (GoMap × Option GoError) × σ :=
  let c := collectFields order (sqlBuilder.CreatePlaceholderProvider ()) fields
  let query := sqlBuilder.BuildInsertSQL tableName c.fieldNames c.fieldPlaceholders
    returnFieldNames
  db.Query query returnFieldNames c.args s

/-- The function returned by `SQLResolverDBCallback db sqlBuilder`; `order` is the
order of its loop over `fields`. -/
def SQLResolverDBCallback {σ : Type} (order : RangeOrder) (db : QueryInterface σ)
    (sqlBuilder : SQLBuilder) : ResolverDBCallback σ :=
  fun tableName fields returnFieldNames s =>
    let r := queryCall order db sqlBuilder tableName fields returnFieldNames s
    match r.1.2 with
    | some err => ((GoMap.nil, some err), r.2)
    | none => ((r.1.1, none), r.2)

/-! ## generator.go: DefaultSQLBuilder -/

/-- The type `defaultSQLPlaceholderProvider`: stateless, always `("?", "")`. -/
def defaultSQLPlaceholderProvider : SQLPlaceholderProvider :=
  { State := Unit, init := (), Next := fun _ => (("?", ""), ()) }

/-- The struct `DefaultSQLBuilder`; `none` is a nil function field. -/
structure DefaultSQLBuilder where
  PlaceholderProviderFactory : Option (Unit → SQLPlaceholderProvider)
  QuoteTable : Option (String → String)
  QuoteField : Option (String → String)

/-- The composite literal `DefaultSQLBuilder{}`. -/
def DefaultSQLBuilder.zero : DefaultSQLBuilder := ⟨none, none, none⟩

def DefaultSQLBuilder.CreatePlaceholderProvider (d : DefaultSQLBuilder) (_ : Unit) :
    SQLPlaceholderProvider :=
  match d.PlaceholderProviderFactory with
  | none => defaultSQLPlaceholderProvider
  | some f => f ()

/-- Go `strings.Join(elems, sep)`. -/
def stringsJoin (elems : List String) (sep : String) : String := sep.intercalate elems

def DefaultSQLBuilder.BuildInsertSQL (d : DefaultSQLBuilder) (tableName : String)
    (fieldNames fieldPlaceholders returnFieldNames : List String) : String :=
  let tableName := match d.QuoteTable with
    | some q => q tableName
    | none => tableName
  let fieldNames := match d.QuoteField with
    | some q => fieldNames.map q
    | none => fieldNames
  let ret := "INSERT INTO " ++ tableName ++ " (" ++ stringsJoin fieldNames ", "
    ++ ") VALUES (" ++ stringsJoin fieldPlaceholders ", " ++ ")"
  if returnFieldNames.length > 0 then
    ret ++ (" RETURNING " ++ stringsJoin returnFieldNames ",")
  else ret

/-- The struct `DefaultSQLBuilder` as an implementation of `SQLBuilder`. -/
def DefaultSQLBuilder.iface (d : DefaultSQLBuilder) : SQLBuilder :=
  ⟨d.CreatePlaceholderProvider, d.BuildInsertSQL⟩

/-! ## Observers used to state what a collaborator is given -/

/-- One call of a `ResolverDBCallback`. -/
structure CallbackCall where
  tableName : String
  fields : GoMap
  returnFieldNames : List String
deriving DecidableEq, Repr

/-- The callback `cb`, additionally logging every call it receives. -/
def recordCallback {σ : Type} (cb : ResolverDBCallback σ) :
    ResolverDBCallback (σ × List CallbackCall) :=
  fun tableName fields returnFieldNames s =>
    let r := cb tableName fields returnFieldNames s.1
    (r.1, (r.2, s.2 ++ [⟨tableName, fields, returnFieldNames⟩]))

/-- One call of `QueryInterface.Query`. -/
structure SinkCall where
  query : String
  returnFieldNames : List String
  args : List Value
deriving DecidableEq, Repr

/-- The sink `db`, additionally logging every call it receives. -/
def recordSink {σ : Type} (db : QueryInterface σ) : QueryInterface (σ × List SinkCall) :=
  ⟨fun query returnFieldNames args s =>
    let r := db.Query query returnFieldNames args s.1
    (r.1, (r.2, s.2 ++ [⟨query, returnFieldNames, args⟩]))⟩

/-- The provider `p`, additionally counting the calls of `Next`. -/
def countNext (p : SQLPlaceholderProvider) : SQLPlaceholderProvider :=
  { State := p.State × Nat
    init := (p.init, 0)
    Next := fun s => ((p.Next s.1).1, ((p.Next s.1).2, s.2 + 1)) }

/-- The results of the first `n` calls of `Next` on a provider in state `st`. -/
def nextResults {π : Type} (next : π → (String × String) × π) : Nat → π → List (String × String)
  | 0, _ => []
  | n + 1, st => (next st).1 :: nextResults next n (next st).2

/-- The state of a provider in state `st` after `n` calls of `Next`. -/
def nextState {π : Type} (next : π → (String × String) × π) : Nat → π → π
  | 0, st => st
  | n + 1, st => nextState next n (next st).2

/-- The sink of `TestResolve`: it returns `nil, nil`. -/
def nilSink : QueryInterface Unit := ⟨fun _ _ _ s => ((GoMap.nil, none), s)⟩

/-- A sink whose `Query` fails with `e` and nevertheless returns a non-nil map. -/
def failingSink (e : GoError) : QueryInterface Unit :=
  ⟨fun _ _ _ s => ((GoMap.mk [("tag_id", Value.uint 7)], some e), s)⟩

/-- A `QuoteField` hook that puts a name between square brackets. -/
def bracketQuote (f : String) : String := "[" ++ f ++ "]"

/-- The fields `tag_id: 2, tag_name: "All"` of the first row of `TestResolve`. -/
def tagsAllFields : GoMap := GoMap.mk [("tag_id", Value.uint 2), ("tag_name", Value.str "All")]

/-- The sink of `TestResolveGenerated`: `retTagID` (a `uint64`) is its state; for every
requested name `tag_id` it increments `retTagID` and reports it. -/
def generatedSink : QueryInterface Nat :=
  ⟨fun _ returnFieldNames _ retTagID =>
    let r := returnFieldNames.foldl
      (fun (acc : List (String × Value) × Nat) rf =>
        if rf = "tag_id" then
          (setEntry acc.1 "tag_id" (Value.uint ((acc.2 + 1) % 2 ^ 64)), (acc.2 + 1) % 2 ^ 64)
        else acc)
      ([], retTagID)
    ((GoMap.mk r.1, none), r.2)⟩

/-- The fields `tag_id: generated, tag_name: "All"` of the first row of
`TestResolveGenerated`. -/
def tagsGeneratedFields : GoMap :=
  GoMap.mk [("tag_id", Value.generate), ("tag_name", Value.str "All")]

/-- A context for a row of table `tags` with nothing resolved yet. -/
def tagsContext : defaultResolveContext := ⟨"tags", "public.tags", GoMap.nil⟩

/-- A provider with named parameters: the `n`-th call of `Next` (counted from 0) returns
the placeholder `@p` followed by `n` and the argument name `p` followed by `n`. -/
def numberedProvider : SQLPlaceholderProvider :=
  { State := Nat, init := 0, Next := fun n => (("@p" ++ toString n, "p" ++ toString n), n + 1) }

/-- A builder like `DefaultSQLBuilder{}` but with `numberedProvider` as its provider. -/
def numberedBuilder : DefaultSQLBuilder := ⟨some (fun _ => numberedProvider), none, none⟩

/-- A sink that reports the name `row_count` whatever names were requested. -/
def extraSink : QueryInterface Unit :=
  ⟨fun _ _ _ s => ((GoMap.mk [("row_count", Value.uint 1)], none), s)⟩

/-- The context `C`, additionally counting the calls of `ResolveField`. -/
def countResolveField {κ : Type} (C : ResolveContext κ) : ResolveContext (κ × Nat) :=
  ⟨fun c => C.TableID c.1, fun c => C.TableName c.1,
    fun c fieldName value => (C.ResolveField c.1 fieldName value, c.2 + 1)⟩

/-- The fields `tag_id: ResolveGenerate{}` (held by value), `tag_name: "All"`. -/
def tagsStructFields : GoMap :=
  GoMap.mk [("tag_id", Value.generateStruct), ("tag_name", Value.str "All")]

/-! ## generator.go: RowToMap, SQLQueryInterface -/

/-- Interface `RowInterface` over a row with state `ρ`.  `Scan(dest...)` is given one
pointer per destination: the model passes the current contents of the destinations and
receives their contents after the call, with the returned error. -/
structure RowInterface (ρ : Type) where
  Scan : List Value → ρ → (List Value × Option GoError) × ρ

/-- The second loop of `RowToMap` (lines 107-111), from index `i` on: `m[colName] = *val`
with `val` the pointer to `columns[i]`; a destination `Scan` did not write holds nil. -/
def fillMap (columns : List Value) : List String → Nat → List (String × Value) →
    List (String × Value)
  | [], _, m => m
  | colName :: cols, i, m =>
    fillMap columns cols (i + 1) (setEntry m colName (columns.getD i Value.null))

def RowToMap {ρ : Type} (cols : List String) (row : RowInterface ρ) (r : ρ) :
    (GoMap × Option GoError) × ρ :=
  let columns := List.replicate cols.length Value.null
  let sc := row.Scan columns r
  match sc.1.2 with
  | some err => ((GoMap.nil, some err), sc.2)
  | none => ((GoMap.mk (fillMap sc.1.1 cols 0 []), none), sc.2)

/-- The methods of `*sql.Rows` (package `database/sql`) that `Query` uses, over a cursor
with state `ρ`. -/
structure SQLRows (ρ : Type) where
  Next : ρ → Bool × ρ
  Columns : ρ → (List String × Option GoError) × ρ
  Scan : List Value → ρ → (List Value × Option GoError) × ρ
  Err : ρ → Option GoError
  Close : ρ → ρ

/-- A `*sql.Rows` passed as a `RowInterface`. -/
def SQLRows.row {ρ : Type} (rows : SQLRows ρ) : RowInterface ρ := ⟨rows.Scan⟩

/-- The method `Query` of `*sql.DB` (package `database/sql`) over a database with state `δ`;
it returns the cursor (ignored when the error is not nil) and the error. -/
structure SQLDB (δ ρ : Type) where
  Query : String → List Value → δ → (ρ × Option GoError) × δ
  rows : SQLRows ρ

structure SQLQueryInterface (δ ρ : Type) where
  DB : SQLDB δ ρ

/-- The method `SQLQueryInterface.Query`.  The result carries the state of the database and,
when a cursor was opened, the state of the cursor after the deferred `rows.Close()`. -/
def SQLQueryInterface.Query {δ ρ : Type} (q : SQLQueryInterface δ ρ) (query : String)
    (args : List Value) (s : δ) : (GoMap × Option GoError) × (δ × Option ρ) :=
  let res := q.DB.Query query args s
  match res.1.2 with
  | some err => ((GoMap.nil, some err), (res.2, none))
  | none =>
    let nx := q.DB.rows.Next res.1.1
    if !nx.1 then
      ((GoMap.nil, some ⟨"no records"⟩), (res.2, some (q.DB.rows.Close nx.2)))
    else
      let cols := q.DB.rows.Columns nx.2
      match cols.1.2 with
      | some err => ((GoMap.nil, some err), (res.2, some (q.DB.rows.Close cols.2)))
      | none =>
        let ret := RowToMap cols.1.1 q.DB.rows.row cols.2
        match ret.1.2 with
        | some err => ((GoMap.nil, some err), (res.2, some (q.DB.rows.Close ret.2)))
        | none =>
          match q.DB.rows.Err ret.2 with
          | some err => ((GoMap.nil, some err), (res.2, some (q.DB.rows.Close ret.2)))
          | none => ((ret.1.1, none), (res.2, some (q.DB.rows.Close ret.2)))

/-- The row `row`, additionally logging the number of destinations of every call of
`Scan`. -/
def recordScan {ρ : Type} (row : RowInterface ρ) : RowInterface (ρ × List Nat) :=
  ⟨fun dest s =>
    let r := row.Scan dest s.1
    (r.1, (r.2, s.2 ++ [dest.length]))⟩

/-- The entries the second loop of `RowToMap` writes, from index `i` on. -/
def scannedEntries (columns : List Value) : List String → Nat → List (String × Value)
  | [], _ => []
  | colName :: cols, i =>
    (colName, columns.getD i Value.null) :: scannedEntries columns cols (i + 1)

/-- A row holding the values `vals`: `Scan` stores them when it is given as many
destinations and fails otherwise, as `(*sql.Rows).Scan` does. -/
def valuesRow (vals : List Value) : RowInterface Unit :=
  ⟨fun dest s =>
    if dest.length = vals.length then ((vals, none), s)
    else ((dest, some ⟨"sql: wrong number of destination arguments in Scan"⟩), s)⟩

/-- A database whose statements yield no result row: `Next` is false at once. -/
def emptyResultDB : SQLDB Unit Bool :=
  { Query := fun _ _ s => ((false, none), s)
    rows :=
      { Next := fun r => (false, r)
        Columns := fun r => (([], none), r)
        Scan := fun dest r => ((dest, none), r)
        Err := fun _ => none
        Close := fun _ => true } }

/-! ## Resolution engine (modelled from the spec) -/

/-- Modelled from the spec: the Field Value of §3, a tagged union of Literal, Reference
`(table name, row identifier, field name)` and Generate, as the loader hands it to the core
(§6).  The loader `debefix.Load` and the engine `debefix.Resolve` are not under `src/`. -/
inductive FieldValue where
  | literal (v : Value)
  | reference (table row field : String)
  | generate
deriving DecidableEq, Repr

/-- Modelled from the spec: the Row of §3, an ordered collection of named field values and
an optional symbolic row identifier. -/
structure Row where
  fields : List (String × FieldValue)
  id : Option String
deriving DecidableEq, Repr

/-- Modelled from the spec: the Table of §3, identified by `name`, with the name of the
table in the data store (`table_name` of the test data), its `depends` list and its rows in
declared order. -/
structure Table where
  name : String
  tableName : String
  depends : List String
  rows : List Row
deriving DecidableEq, Repr

/-- Modelled from the spec: the error kinds of §7. -/
inductive ResolveError where
  | DependencyCycleError (tables : List String)
  | UnresolvedReferenceError (table row field : String)
  | SinkError (err : GoError)
deriving DecidableEq, Repr

/-- Modelled from the spec: the Symbol Table of §3, from `(table name, row identifier,
field name)` to the resolved value. -/
abbrev SymbolTable := List ((String × String × String) × Value)

/-- Modelled from the spec: a write to the Symbol Table. -/
def SymbolTable.set : SymbolTable → String × String × String → Value → SymbolTable
  | [], k, v => [(k, v)]
  | (k', v') :: t, k, v => if k' = k then (k, v) :: t else (k', v') :: SymbolTable.set t k v

/-- Modelled from the spec: the Dependency Graph Orderer of §4.1, by repeated removal of the
first table in declaration order whose dependencies have all been emitted; when tables remain
and none is free the graph has a cycle.  `fuel` bounds the number of removals. -/
def orderTables : Nat → List Table → List Table → Except ResolveError (List Table)
  | 0, pending, done =>
    if pending = [] then .ok done
    else .error (.DependencyCycleError (pending.map (fun t => t.name)))
  | fuel + 1, pending, done =>
    match pending.find? (fun t => t.depends.all (fun d => done.any (fun u => u.name = d))) with
    | none =>
      if pending = [] then .ok done
      else .error (.DependencyCycleError (pending.map (fun t => t.name)))
    | some t => orderTables fuel (pending.filter (fun u => u.name ≠ t.name)) (done ++ [t])

/-- Modelled from the spec: steps 1-4 of the Row Resolver of §4.2 on the ordered fields of a
row.  A Literal passes through, a Reference is looked up in the Symbol Table, and a Generate
field is handed on as the `*ResolveGenerate` marker that `ResolverFunc` collects. -/
def resolveFieldValues (sym : SymbolTable) :
    List (String × FieldValue) → List (String × Value) →
      Except ResolveError (List (String × Value))
  | [], acc => .ok acc
  | (n, .literal v) :: t, acc => resolveFieldValues sym t (setEntry acc n v)
  | (n, .reference tb r f) :: t, acc =>
    match sym.lookup (tb, r, f) with
    | some v => resolveFieldValues sym t (setEntry acc n v)
    | none => .error (.UnresolvedReferenceError tb r f)
  | (n, .generate) :: t, acc => resolveFieldValues sym t (setEntry acc n Value.generate)

/-- The type of the function returned by `ResolverFunc` for a `defaultResolveContext`. -/
abbrev RowResolver (σ : Type) :=
  defaultResolveContext → GoMap → σ → Option GoError × defaultResolveContext × σ

/-- Modelled from the spec: step 6 of §4.2, the writes to the Symbol Table for a row with
identifier `id`: its literal and reference values, then the values registered through the
Resolve Context. -/
def registerRow (sym : SymbolTable) (table id : String) (fields : List (String × Value))
    (resolved : GoMap) : SymbolTable :=
  resolved.entries.foldl (fun st e => st.set (table, id, e.1) e.2)
    ((fields.filter (fun e => !e.2.isResolveValue)).foldl
      (fun st e => st.set (table, id, e.1) e.2) sym)

/-- Modelled from the spec: the Row Resolver of §4.2 for one row.  The fields are resolved,
a Resolve Context scoped to the row is created, the external resolver is invoked once, and
the values are written to the Symbol Table; an error aborts. -/
def resolveRow {σ : Type} (f : RowResolver σ) (t : Table) (row : Row)
    (st : SymbolTable × σ) : Option ResolveError × (SymbolTable × σ) :=
  match resolveFieldValues st.1 row.fields [] with
  | .error e => (some e, st)
  | .ok fields =>
    let r := f ⟨t.name, t.tableName, GoMap.nil⟩ (GoMap.mk fields) st.2
    match r.1 with
    | some err => (some (.SinkError err), (st.1, r.2.2))
    | none =>
      match row.id with
      | none => (none, (st.1, r.2.2))
      | some id => (none, (registerRow st.1 t.name id fields r.2.1.resolved, r.2.2))

/-- Modelled from the spec: the rows of one table in declared order, fail-fast. -/
def resolveRows {σ : Type} (f : RowResolver σ) (t : Table) :
    List Row → SymbolTable × σ → Option ResolveError × (SymbolTable × σ)
  | [], st => (none, st)
  | row :: rows, st =>
    match resolveRow f t row st with
    | (some e, st') => (some e, st')
    | (none, st') => resolveRows f t rows st'

/-- Modelled from the spec: the tables in the order of the Orderer, fail-fast. -/
def resolveTables {σ : Type} (f : RowResolver σ) :
    List Table → SymbolTable × σ → Option ResolveError × (SymbolTable × σ)
  | [], st => (none, st)
  | t :: ts, st =>
    match resolveRows f t t.rows st with
    | (some e, st') => (some e, st')
    | (none, st') => resolveTables f ts st'

/-- Modelled from the spec: the top-level resolve operation (`debefix.Resolve`, not under
`src/`): order the tables (§4.1), then resolve every row (§4.2) with a fresh Symbol Table. -/
def Resolve {σ : Type} (data : List Table) (f : RowResolver σ) (s : σ) :
    Option ResolveError × σ :=
  match orderTables data.length data [] with
  | .error e => (some e, s)
  | .ok tables =>
    let r := resolveTables f tables ([], s)
    (r.1, r.2.2)

/-- The table `tags` of `TestResolve`. -/
def tagsTable : Table :=
  { name := "tags", tableName := "public.tags", depends := [],
    rows :=
      [ ⟨[("tag_id", .literal (Value.uint 2)), ("tag_name", .literal (Value.str "All"))],
          some "all"⟩,
        ⟨[("tag_id", .literal (Value.uint 5)), ("tag_name", .literal (Value.str "Half"))],
          some "half"⟩ ] }

/-- The table `posts` of `TestResolve`, which depends on `tags`. -/
def postsTable : Table :=
  { name := "posts", tableName := "public.posts", depends := ["tags"],
    rows :=
      [ ⟨[("post_id", .literal (Value.uint 1)),
            ("title", .literal (Value.str "First post"))], some "post_1"⟩,
        ⟨[("post_id", .literal (Value.uint 2)),
            ("title", .literal (Value.str "Second post"))], some "post_2"⟩ ] }

/-- The table `post_tags` of `TestResolve`, whose rows reference `posts` and `tags`. -/
def postTagsTable : Table :=
  { name := "post_tags", tableName := "public.post_tags", depends := [],
    rows :=
      [ ⟨[("post_id", .reference "posts" "post_1" "post_id"),
            ("tag_id", .reference "tags" "all" "tag_id")], none⟩,
        ⟨[("post_id", .reference "posts" "post_2" "post_id"),
            ("tag_id", .reference "tags" "half" "tag_id")], none⟩ ] }

/-- The data of `TestResolve`, in declared order. -/
def testResolveData : List Table := [tagsTable, postsTable, postTagsTable]

/-- The Symbol Table after the tables `tags` and `posts` of `TestResolve`. -/
def testResolveSymbols : SymbolTable :=
  [ (("tags", "all", "tag_id"), Value.uint 2), (("tags", "all", "tag_name"), Value.str "All"),
    (("tags", "half", "tag_id"), Value.uint 5),
    (("tags", "half", "tag_name"), Value.str "Half"),
    (("posts", "post_1", "post_id"), Value.uint 1),
    (("posts", "post_1", "title"), Value.str "First post"),
    (("posts", "post_2", "post_id"), Value.uint 2),
    (("posts", "post_2", "title"), Value.str "Second post") ]

/-- The call of `Query` for an insert into `t` of the entries `r` in this order, with the
placeholders and the statement of `DefaultSQLBuilder{}` and no requested name. -/
def insertCall (t : String) (r : List (String × Value)) : SinkCall :=
  ⟨DefaultSQLBuilder.zero.BuildInsertSQL t (r.map Prod.fst) (List.replicate r.length "?") [],
    [], r.map Prod.snd⟩

/-- The resolver of `TestResolve`: `ResolverFunc` composed with `SQLResolverDBCallback` for
the sink of the test (logged) and `DefaultSQLBuilder{}`. -/
def testResolver (ordFields ordResolved ordSQL : RangeOrder) :
    RowResolver (Unit × List SinkCall) :=
  ResolverFunc ordFields ordResolved
    (SQLResolverDBCallback ordSQL (recordSink nilSink) DefaultSQLBuilder.zero.iface)
    defaultResolveContext.iface

/-! ## Lemmas on maps -/

theorem lookup_cons_ite (k ka : String) (va : Value) (t : List (String × Value)) :
    List.lookup k ((ka, va) :: t) = if k = ka then some va else List.lookup k t := by
  by_cases h : k = ka
  · subst h; simp [List.lookup]
  · have hb : (k == ka) = false := by simpa using h
    simp [List.lookup, hb, h]

theorem lookup_setEntry (l : List (String × Value)) (k k' : String) (v : Value) :
    (setEntry l k v).lookup k' = if k' = k then some v else l.lookup k' := by
  induction l with
  | nil => simp [setEntry, lookup_cons_ite]
  | cons a t ih =>
    obtain ⟨ka, va⟩ := a
    by_cases hk : ka = k
    · subst hk
      by_cases h : k' = ka
      · simp [setEntry, lookup_cons_ite, h]
      · simp [setEntry, lookup_cons_ite, h]
    · by_cases h : k' = ka
      · subst h
        simp [setEntry, hk, lookup_cons_ite]
      · simp [setEntry, hk, h, ih, lookup_cons_ite]

theorem setEntry_of_not_mem (l : List (String × Value)) (k : String) (v : Value)
    (h : k ∉ l.map Prod.fst) : setEntry l k v = l ++ [(k, v)] := by
  induction l with
  | nil => rfl
  | cons a t ih =>
    obtain ⟨ka, va⟩ := a
    simp only [List.map_cons, List.mem_cons, not_or] at h
    have hne : ¬ ka = k := fun e => h.1 e.symm
    simp [setEntry, hne, ih h.2]

theorem lookup_eq_none_of_not_mem (l : List (String × Value)) (k : String)
    (h : k ∉ l.map Prod.fst) : l.lookup k = none := by
  induction l with
  | nil => rfl
  | cons a t ih =>
    obtain ⟨ka, va⟩ := a
    simp only [List.map_cons, List.mem_cons, not_or] at h
    have hne : ¬ k = ka := h.1
    simp [lookup_cons_ite, hne, ih h.2]

theorem lookup_eq_some_of_mem (l : List (String × Value)) (hnd : (l.map Prod.fst).Nodup)
    (k : String) (v : Value) (h : (k, v) ∈ l) : l.lookup k = some v := by
  induction l with
  | nil => simp at h
  | cons a t ih =>
    obtain ⟨ka, va⟩ := a
    simp only [List.map_cons, List.nodup_cons] at hnd
    rcases List.mem_cons.1 h with h | h
    · cases h; simp [lookup_cons_ite]
    · have hk : k ∈ t.map Prod.fst := List.mem_map.2 ⟨(k, v), h, rfl⟩
      have hne : ¬ k = ka := fun e => hnd.1 (e ▸ hk)
      simp [lookup_cons_ite, hne, ih hnd.2 h]

theorem mem_of_lookup_eq_some (l : List (String × Value)) (k : String) (v : Value)
    (h : l.lookup k = some v) : (k, v) ∈ l := by
  induction l with
  | nil => simp [List.lookup] at h
  | cons a t ih =>
    obtain ⟨ka, va⟩ := a
    rw [lookup_cons_ite] at h
    by_cases hk : k = ka
    · subst hk
      simp at h
      subst h
      exact List.mem_cons_self _ _
    · simp [hk] at h
      exact List.mem_cons_of_mem _ (ih h)

/-- Lookup in a list with distinct keys does not depend on the order of the entries. -/
theorem lookup_perm {l l' : List (String × Value)} (hp : l.Perm l')
    (hnd : (l'.map Prod.fst).Nodup) (k : String) : l.lookup k = l'.lookup k := by
  have hnd1 : (l.map Prod.fst).Nodup := (hp.map Prod.fst).nodup_iff.2 hnd
  cases h : l'.lookup k with
  | none =>
    cases h1 : l.lookup k with
    | none => rfl
    | some v =>
      have hm : (k, v) ∈ l' := hp.subset (mem_of_lookup_eq_some l k v h1)
      rw [lookup_eq_some_of_mem l' hnd k v hm] at h
      cases h
  | some v =>
    have hm : (k, v) ∈ l := hp.symm.subset (mem_of_lookup_eq_some l' k v h)
    exact lookup_eq_some_of_mem l hnd1 k v hm

/-! ## Lemmas on the loop of ResolverFunc -/

theorem isResolveValue_of_isGeneratePtr (v : Value) (h : v.isGeneratePtr = true) :
    v.isResolveValue = true := by
  cases v <;> simp_all [Value.isGeneratePtr, Value.isResolveValue]

/-- The loop of `ResolverFunc` on entries with distinct keys: `insertFields` receives
the entries that are not a `ResolveValue`, `returnFieldNames` the names of the
`*ResolveGenerate` entries, both in the order of the iteration. -/
theorem foldl_classifyStep (l : List (String × Value)) :
    ∀ (a : List (String × Value)) (r : List String),
      (a.map Prod.fst ++ l.map Prod.fst).Nodup →
      l.foldl classifyStep (a, r) =
        (a ++ l.filter (fun e => !e.2.isResolveValue),
          r ++ (l.filter (fun e => e.2.isGeneratePtr)).map Prod.fst) := by
  induction l with
  | nil => intro a r _; simp
  | cons e t ih =>
    intro a r hnd
    have hnd' : (a.map Prod.fst ++ t.map Prod.fst).Nodup := by
      refine hnd.sublist ?_
      exact List.Sublist.append_left (List.sublist_cons_self _ _) _
    rw [List.foldl_cons]
    by_cases hrv : e.2.isResolveValue = true
    · by_cases hg : e.2.isGeneratePtr = true
      · have hs : classifyStep (a, r) e = (a, r ++ [e.1]) := by
          simp [classifyStep, hrv, hg]
        rw [hs, ih a (r ++ [e.1]) hnd']
        simp [List.filter_cons, hrv, hg]
      · have hs : classifyStep (a, r) e = (a, r) := by
          simp [classifyStep, hrv, hg]
        rw [hs, ih a r hnd']
        simp [List.filter_cons, hrv, hg]
    · have hg : ¬ e.2.isGeneratePtr = true := fun h =>
        hrv (isResolveValue_of_isGeneratePtr _ h)
      have hnot : e.1 ∉ a.map Prod.fst := by
        intro hm
        have := List.nodup_append.1 hnd
        exact this.2.2 hm (by simp)
      have hs : classifyStep (a, r) e = (a ++ [e], r) := by
        simp [classifyStep, hrv, setEntry_of_not_mem a e.1 e.2 hnot]
      have hnd2 : ((a ++ [e]).map Prod.fst ++ t.map Prod.fst).Nodup := by
        simpa using hnd
      rw [hs, ih (a ++ [e]) r hnd2]
      simp [List.filter_cons, hrv, hg]

theorem classifyFields_eq (order : RangeOrder) (fields : GoMap) (hwf : fields.WF) :
    classifyFields order fields =
      ((order.pick fields.entries).filter (fun e => !e.2.isResolveValue),
        ((order.pick fields.entries).filter (fun e => e.2.isGeneratePtr)).map Prod.fst) := by
  have hnd : (([] : List (String × Value)).map Prod.fst
      ++ (order.pick fields.entries).map Prod.fst).Nodup := by
    simpa using ((order.perm fields.entries).map Prod.fst).nodup_iff.2 hwf
  simpa [classifyFields] using foldl_classifyStep (order.pick fields.entries) [] [] hnd

/-- The function returned by `ResolverFunc` calls the callback exactly once, with the
table name of the context and the two outputs of its loop. -/
theorem ResolverFunc_log {σ κ : Type} (ordFields ordResolved : RangeOrder)
    (cb : ResolverDBCallback σ) (C : ResolveContext κ) (ctx : κ) (fields : GoMap) (s : σ)
    (log : List CallbackCall) :
    (ResolverFunc ordFields ordResolved (recordCallback cb) C ctx fields (s, log)).2.2.2 =
      log ++ [⟨C.TableName ctx, GoMap.mk (classifyFields ordFields fields).1,
        (classifyFields ordFields fields).2⟩] := by
  unfold ResolverFunc
  simp only [recordCallback]
  split <;> rfl

theorem value_unique_of_nodup (l : List (String × Value)) (hnd : (l.map Prod.fst).Nodup)
    (k : String) (v v' : Value) (h : (k, v) ∈ l) (h' : (k, v') ∈ l) : v = v' := by
  have e1 := lookup_eq_some_of_mem l hnd k v h
  have e2 := lookup_eq_some_of_mem l hnd k v' h'
  rw [e1] at e2
  exact Option.some.inj e2

/-! ## Lemmas on the loop of SQLResolverDBCallback -/

/-- The loop of `SQLResolverDBCallback` over the entries `l`: one call of `Next` per entry,
names, placeholders and arguments appended in the order of the iteration. -/
theorem foldl_collectStep {π : Type} (next : π → (String × String) × π)
    (l : List (String × Value)) :
    ∀ acc : Collected π,
      l.foldl (collectStep next) acc =
        { fieldNames := acc.fieldNames ++ l.map Prod.fst
          fieldPlaceholders := acc.fieldPlaceholders
            ++ (nextResults next l.length acc.provider).map Prod.fst
          args := acc.args
            ++ List.zipWith (fun r e => wrapArg r.2 e.2)
              (nextResults next l.length acc.provider) l
          provider := nextState next l.length acc.provider } := by
  induction l with
  | nil => intro acc; simp [nextResults, nextState]
  | cons e t ih =>
    intro acc
    rw [List.foldl_cons, ih]
    simp [collectStep, nextResults, nextState]

theorem collectFields_eq (order : RangeOrder) (p : SQLPlaceholderProvider) (fields : GoMap) :
    collectFields order p fields =
      { fieldNames := (order.pick fields.entries).map Prod.fst
        fieldPlaceholders :=
          (nextResults p.Next (order.pick fields.entries).length p.init).map Prod.fst
        args := List.zipWith (fun r e => wrapArg r.2 e.2)
          (nextResults p.Next (order.pick fields.entries).length p.init)
          (order.pick fields.entries)
        provider := nextState p.Next (order.pick fields.entries).length p.init } := by
  unfold collectFields
  rw [foldl_collectStep]
  simp

theorem length_nextResults {π : Type} (next : π → (String × String) × π) (n : Nat) :
    ∀ st, (nextResults next n st).length = n := by
  induction n with
  | zero => intro st; rfl
  | succ n ih => intro st; simp [nextResults, ih]

theorem nextState_countNext (p : SQLPlaceholderProvider) (n : Nat) :
    ∀ (st : p.State) (c : Nat),
      (nextState (countNext p).Next n (st, c)).2 = c + n := by
  induction n with
  | zero => intro st c; rfl
  | succ n ih =>
    intro st c
    simp only [nextState]
    have : ((countNext p).Next (st, c)).2 = ((p.Next st).2, c + 1) := rfl
    rw [this, ih]
    omega

theorem pick_length (order : RangeOrder) (l : List (String × Value)) :
    (order.pick l).length = l.length := (order.perm l).length_eq

/-- The statement and arguments `SQLResolverDBCallback` gives the sink: one call of
`Query`, with the statement the builder builds from the outputs of the loop. -/
theorem SQLResolverDBCallback_log {σ : Type} (order : RangeOrder) (db : QueryInterface σ)
    (B : SQLBuilder) (t : String) (fields : GoMap) (R : List String) (s : σ)
    (log : List SinkCall) :
    (SQLResolverDBCallback order (recordSink db) B t fields R (s, log)).2.2 =
      log ++ [⟨B.BuildInsertSQL t
          (collectFields order (B.CreatePlaceholderProvider ()) fields).fieldNames
          (collectFields order (B.CreatePlaceholderProvider ()) fields).fieldPlaceholders R,
        R, (collectFields order (B.CreatePlaceholderProvider ()) fields).args⟩] := by
  unfold SQLResolverDBCallback
  simp only [queryCall, recordSink]
  split <;> rfl

theorem nextResults_countNext (p : SQLPlaceholderProvider) (n : Nat) :
    ∀ (st : p.State) (c : Nat),
      nextResults (countNext p).Next n (st, c) = nextResults p.Next n st := by
  induction n with
  | zero => intro st c; rfl
  | succ n ih =>
    intro st c
    simp only [nextResults]
    have h1 : ((countNext p).Next (st, c)).2 = ((p.Next st).2, c + 1) := rfl
    have h2 : ((countNext p).Next (st, c)).1 = (p.Next st).1 := rfl
    rw [h1, h2, ih]

theorem wrapArg_cases (argName : String) (v : Value) :
    wrapArg argName v = v ∨ ∃ nm, wrapArg argName v = Value.named nm v := by
  by_cases h : argName = ""
  · left; simp [wrapArg, h]
  · right; exact ⟨argName, by simp [wrapArg, h]⟩

/-- The callback state after the function returned by `ResolverFunc` is the state after
its single call of the callback. -/
theorem ResolverFunc_state {σ κ : Type} (ordFields ordResolved : RangeOrder)
    (cb : ResolverDBCallback σ) (C : ResolveContext κ) (ctx : κ) (fields : GoMap) (s : σ) :
    (ResolverFunc ordFields ordResolved cb C ctx fields s).2.2 =
      (cb (C.TableName ctx) (GoMap.mk (classifyFields ordFields fields).1)
        (classifyFields ordFields fields).2 s).2 := by
  unfold ResolverFunc
  simp only
  split <;> rfl

theorem classifyFields_literal (order : RangeOrder) (fields : GoMap) (hwf : fields.WF)
    (hlit : ∀ e ∈ fields.entries, e.2.isResolveValue = false) :
    classifyFields order fields = (order.pick fields.entries, []) := by
  rw [classifyFields_eq order fields hwf]
  have h1 : ∀ e ∈ order.pick fields.entries, e.2.isResolveValue = false :=
    fun e he => hlit e ((order.perm fields.entries).subset he)
  have hf1 : (order.pick fields.entries).filter (fun e => !e.2.isResolveValue)
      = order.pick fields.entries := by
    apply List.filter_eq_self.2
    intro e he
    simp [h1 e he]
  have hf2 : (order.pick fields.entries).filter (fun e => e.2.isGeneratePtr) = [] := by
    apply List.filter_eq_nil_iff.2
    intro e he hg
    have := isResolveValue_of_isGeneratePtr _ hg
    rw [h1 e he] at this
    cases this
  rw [hf1, hf2]
  rfl

theorem BuildInsertSQL_no_return (d : DefaultSQLBuilder) (t : String) (F P : List String) :
    d.BuildInsertSQL t F P [] =
      "INSERT INTO " ++ (d.QuoteTable.getD id) t ++ " ("
        ++ stringsJoin (F.map (d.QuoteField.getD id)) ", "
        ++ ") VALUES (" ++ stringsJoin P ", " ++ ")" := by
  obtain ⟨pf, qt, qf⟩ := d
  cases qt <;> cases qf <;> simp [DefaultSQLBuilder.BuildInsertSQL]

/-! ## Lemmas on ResolveField -/

theorem get_ResolveField (d : defaultResolveContext) (fn : String) (v : Value) (k : String) :
    (d.ResolveField fn v).resolved.get k = if k = fn then some v else d.resolved.get k := by
  unfold defaultResolveContext.ResolveField
  simp only [GoMap.get, GoMap.entries]
  rw [lookup_setEntry]
  by_cases hn : d.resolved = GoMap.nil
  · simp [hn, GoMap.entries]
  · simp [hn]

/-- Registering the entries `l` (distinct names) one after the other: a name of `l` ends
with its value in `l`, every other name keeps what it had. -/
theorem get_foldl_ResolveField (l : List (String × Value)) :
    ∀ (d : defaultResolveContext), (l.map Prod.fst).Nodup → ∀ k : String,
      (l.foldl (fun c e => defaultResolveContext.ResolveField c e.1 e.2) d).resolved.get k =
        match l.lookup k with
        | some v => some v
        | none => d.resolved.get k := by
  induction l with
  | nil => intro d _ k; simp [List.lookup]
  | cons e t ih =>
    intro d hnd k
    obtain ⟨ke, ve⟩ := e
    simp only [List.map_cons, List.nodup_cons] at hnd
    rw [List.foldl_cons, ih _ hnd.2 k, lookup_cons_ite, get_ResolveField]
    by_cases hk : k = ke
    · subst hk
      rw [lookup_eq_none_of_not_mem t k hnd.1]
      simp
    · simp [hk]

theorem ResolverFunc_ok {σ κ : Type} (ordFields ordResolved : RangeOrder)
    (cb : ResolverDBCallback σ) (C : ResolveContext κ) (ctx : κ) (fields : GoMap) (s : σ)
    (resolved : GoMap)
    (hcb : (cb (C.TableName ctx) (GoMap.mk (classifyFields ordFields fields).1)
      (classifyFields ordFields fields).2 s).1 = (resolved, none)) :
    ResolverFunc ordFields ordResolved cb C ctx fields s =
      (none, (ordResolved.pick resolved.entries).foldl
          (fun c e => C.ResolveField c e.1 e.2) ctx,
        (cb (C.TableName ctx) (GoMap.mk (classifyFields ordFields fields).1)
          (classifyFields ordFields fields).2 s).2) := by
  unfold ResolverFunc
  simp only [hcb]

theorem ResolverFunc_err {σ κ : Type} (ordFields ordResolved : RangeOrder)
    (cb : ResolverDBCallback σ) (C : ResolveContext κ) (ctx : κ) (fields : GoMap) (s : σ)
    (e : GoError)
    (hcb : (cb (C.TableName ctx) (GoMap.mk (classifyFields ordFields fields).1)
      (classifyFields ordFields fields).2 s).1.2 = some e) :
    ResolverFunc ordFields ordResolved cb C ctx fields s =
      (some e, ctx,
        (cb (C.TableName ctx) (GoMap.mk (classifyFields ordFields fields).1)
          (classifyFields ordFields fields).2 s).2) := by
  unfold ResolverFunc
  simp only [hcb]

/-- The resolved map of a `defaultResolveContext` after a successful call of the function
returned by `ResolverFunc`, name by name. -/
theorem ResolverFunc_resolved_get {σ : Type} (ordFields ordResolved : RangeOrder)
    (cb : ResolverDBCallback σ) (ctx : defaultResolveContext) (fields : GoMap) (s : σ)
    (resolved : GoMap) (hwf : resolved.WF)
    (hcb : (cb ctx.tableName (GoMap.mk (classifyFields ordFields fields).1)
      (classifyFields ordFields fields).2 s).1 = (resolved, none)) (k : String) :
    (ResolverFunc ordFields ordResolved cb defaultResolveContext.iface ctx fields
        s).2.1.resolved.get k =
      match resolved.get k with
      | some v => some v
      | none => ctx.resolved.get k := by
  rw [ResolverFunc_ok ordFields ordResolved cb defaultResolveContext.iface ctx fields s
    resolved hcb]
  have hnd : ((ordResolved.pick resolved.entries).map Prod.fst).Nodup :=
    ((ordResolved.perm resolved.entries).map Prod.fst).nodup_iff.2 hwf
  have := get_foldl_ResolveField (ordResolved.pick resolved.entries) ctx hnd k
  rw [lookup_perm (ordResolved.perm resolved.entries) hwf k] at this
  exact this

/-! ## Lemmas on errors and on the default provider -/

theorem SQLResolverDBCallback_err {σ : Type} (order : RangeOrder) (db : QueryInterface σ)
    (B : SQLBuilder) (t : String) (F : GoMap) (R : List String) (s : σ) (e : GoError)
    (h : (queryCall order db B t F R s).1.2 = some e) :
    SQLResolverDBCallback order db B t F R s =
      ((GoMap.nil, some e), (queryCall order db B t F R s).2) := by
  unfold SQLResolverDBCallback
  simp only [h]

theorem nextResults_default (n : Nat) :
    ∀ st, nextResults defaultSQLPlaceholderProvider.Next n st = List.replicate n ("?", "") := by
  induction n with
  | zero => intro st; rfl
  | succ n ih =>
    intro st
    simp only [nextResults, List.replicate_succ]
    rw [ih]
    rfl

theorem zipWith_wrapArg_replicate (l : List (String × Value)) (ph : String) :
    List.zipWith (fun (r : String × String) (e : String × Value) => wrapArg r.2 e.2)
      (List.replicate l.length (ph, "")) l = l.map Prod.snd := by
  induction l with
  | nil => rfl
  | cons e t ih =>
    simp only [List.length_cons, List.replicate_succ, List.zipWith_cons_cons, List.map_cons]
    rw [ih]
    simp [wrapArg]

theorem collectFields_default (order : RangeOrder) (fields : GoMap) :
    (collectFields order defaultSQLPlaceholderProvider fields).fieldNames =
      (order.pick fields.entries).map Prod.fst ∧
    (collectFields order defaultSQLPlaceholderProvider fields).fieldPlaceholders =
      List.replicate fields.len "?" ∧
    (collectFields order defaultSQLPlaceholderProvider fields).args =
      (order.pick fields.entries).map Prod.snd := by
  rw [collectFields_eq]
  simp only [nextResults_default, zipWith_wrapArg_replicate]
  simp [pick_length, GoMap.len]

theorem SQLResolverDBCallback_ok {σ : Type} (order : RangeOrder) (db : QueryInterface σ)
    (B : SQLBuilder) (t : String) (F : GoMap) (R : List String) (s : σ)
    (h : (queryCall order db B t F R s).1.2 = none) :
    SQLResolverDBCallback order db B t F R s =
      (((queryCall order db B t F R s).1.1, none), (queryCall order db B t F R s).2) := by
  unfold SQLResolverDBCallback
  simp only [h]

/-- The mapping `SQLResolverDBCallback` returns: nil after an error of the sink, the
mapping of the sink otherwise. -/
theorem SQLResolverDBCallback_mapping {σ : Type} (order : RangeOrder) (db : QueryInterface σ)
    (B : SQLBuilder) (t : String) (F : GoMap) (R : List String) (s : σ) :
    (SQLResolverDBCallback order db B t F R s).1.1 =
      match (queryCall order db B t F R s).1.2 with
      | some _ => GoMap.nil
      | none => (queryCall order db B t F R s).1.1 := by
  cases h : (queryCall order db B t F R s).1.2 with
  | none => rw [SQLResolverDBCallback_ok order db B t F R s h]
  | some e => rw [SQLResolverDBCallback_err order db B t F R s e h]

theorem lookup_eq_none_of_keys_subset (m : GoMap) (R : List String)
    (hsub : ∀ k ∈ m.keys, k ∈ R) (k : String) (hk : k ∉ R) : m.get k = none :=
  lookup_eq_none_of_not_mem _ k (fun h => hk (hsub k h))

theorem mem_keys_setEntry (l : List (String × Value)) (f : String) (v : Value) (k : String)
    (hk : k ∈ l.map Prod.fst) : k ∈ (setEntry l f v).map Prod.fst := by
  induction l with
  | nil => simp at hk
  | cons a t ih =>
    obtain ⟨ka, va⟩ := a
    by_cases h : ka = f
    · subst h
      simpa [setEntry] using hk
    · simp only [List.map_cons, List.mem_cons] at hk
      rcases hk with hk | hk
      · simp [setEntry, h, hk]
      · simp [setEntry, h, ih hk]

/-- The error returned by the function returned by `ResolverFunc` is the error of its call
of the callback. -/
theorem ResolverFunc_error {σ κ : Type} (ordFields ordResolved : RangeOrder)
    (cb : ResolverDBCallback σ) (C : ResolveContext κ) (ctx : κ) (fields : GoMap) (s : σ) :
    (ResolverFunc ordFields ordResolved cb C ctx fields s).1 =
      (cb (C.TableName ctx) (GoMap.mk (classifyFields ordFields fields).1)
        (classifyFields ordFields fields).2 s).1.2 := by
  unfold ResolverFunc
  simp only
  split
  · next e h => rw [h]
  · next h => rw [h]

theorem pick_nodup (order : RangeOrder) (fields : GoMap) (hwf : fields.WF) :
    ((order.pick fields.entries).map Prod.fst).Nodup :=
  ((order.perm fields.entries).map Prod.fst).nodup_iff.2 hwf

/-! ## Lemmas on RowToMap -/

theorem fillMap_eq (columns : List Value) (cols : List String) :
    ∀ (i : Nat) (m : List (String × Value)), (m.map Prod.fst ++ cols).Nodup →
      fillMap columns cols i m = m ++ scannedEntries columns cols i := by
  induction cols with
  | nil => intro i m _; simp [fillMap, scannedEntries]
  | cons c cs ih =>
    intro i m hnd
    have hnot : c ∉ m.map Prod.fst := by
      intro hm
      exact (List.nodup_append.1 hnd).2.2 hm (by simp)
    have hnd2 : ((m ++ [(c, columns.getD i Value.null)]).map Prod.fst ++ cs).Nodup := by
      simpa using hnd
    simp only [fillMap, scannedEntries]
    rw [setEntry_of_not_mem m c _ hnot, ih (i + 1) _ hnd2]
    simp

theorem keys_scannedEntries (columns : List Value) (cols : List String) :
    ∀ i : Nat, (scannedEntries columns cols i).map Prod.fst = cols := by
  induction cols with
  | nil => intro i; rfl
  | cons c cs ih => intro i; simp [scannedEntries, ih]

theorem lookup_scannedEntries (columns : List Value) (cols : List String) :
    ∀ (i j : Nat) (c : String), cols.Nodup → cols[j]? = some c →
      (scannedEntries columns cols i).lookup c = some (columns.getD (i + j) Value.null) := by
  induction cols with
  | nil => intro i j c _ h; simp at h
  | cons c0 cs ih =>
    intro i j c hnd h
    simp only [List.nodup_cons] at hnd
    simp only [scannedEntries]
    rw [lookup_cons_ite]
    cases j with
    | zero =>
      simp only [List.getElem?_cons_zero, Option.some.injEq] at h
      simp [h]
    | succ j =>
      simp only [List.getElem?_cons_succ] at h
      have hmem : c ∈ cs := List.getElem?_mem h
      have hne : ¬ c = c0 := fun e => hnd.1 (e ▸ hmem)
      rw [if_neg hne, ih (i + 1) j c hnd.2 h]
      congr 2
      omega

/-! ## Lemmas on the resolution engine with the resolver of TestResolve -/

/-- The resolver of `TestResolve` on a row of literal values: no error, the context
untouched (the sink returns a nil mapping), and one insert logged by the sink, with the
entries in the order of the two loops. -/
theorem testResolver_literal (ordFields ordResolved ordSQL : RangeOrder)
    (ctx : defaultResolveContext) (l : List (String × Value)) (hwf : (GoMap.mk l).WF)
    (hlit : ∀ e ∈ l, e.2.isResolveValue = false) (log : List SinkCall) :
    testResolver ordFields ordResolved ordSQL ctx (GoMap.mk l) ((), log) =
      (none, ctx, ((), log ++ [insertCall ctx.tableName (ordSQL.pick (ordFields.pick l))])) := by
  have hcf : classifyFields ordFields (GoMap.mk l) = (ordFields.pick l, []) :=
    classifyFields_literal ordFields (GoMap.mk l) hwf hlit
  have hcb : (SQLResolverDBCallback ordSQL (recordSink nilSink) DefaultSQLBuilder.zero.iface
      (defaultResolveContext.iface.TableName ctx)
      (GoMap.mk (classifyFields ordFields (GoMap.mk l)).1)
      (classifyFields ordFields (GoMap.mk l)).2 ((), log)).1 = (GoMap.nil, none) := rfl
  unfold testResolver
  rw [ResolverFunc_ok ordFields ordResolved _ defaultResolveContext.iface ctx (GoMap.mk l)
    ((), log) GoMap.nil hcb]
  have hnil : ordResolved.pick GoMap.nil.entries = [] :=
    List.Perm.eq_nil (ordResolved.perm [])
  have hstate : (SQLResolverDBCallback ordSQL (recordSink nilSink) DefaultSQLBuilder.zero.iface
      (defaultResolveContext.iface.TableName ctx)
      (GoMap.mk (classifyFields ordFields (GoMap.mk l)).1)
      (classifyFields ordFields (GoMap.mk l)).2 ((), log)).2 =
      ((), log ++ [insertCall ctx.tableName (ordSQL.pick (ordFields.pick l))]) := by
    apply Prod.ext
    · rfl
    · rw [SQLResolverDBCallback_log, hcf]
      obtain ⟨h1, h2, h3⟩ := collectFields_default ordSQL (GoMap.mk (ordFields.pick l))
      show log ++ [⟨DefaultSQLBuilder.zero.BuildInsertSQL ctx.tableName
        (collectFields ordSQL defaultSQLPlaceholderProvider
          (GoMap.mk (ordFields.pick l))).fieldNames
        (collectFields ordSQL defaultSQLPlaceholderProvider
          (GoMap.mk (ordFields.pick l))).fieldPlaceholders [], [],
        (collectFields ordSQL defaultSQLPlaceholderProvider
          (GoMap.mk (ordFields.pick l))).args⟩] = _
      rw [h1, h2, h3]
      simp [insertCall, GoMap.len, GoMap.entries, pick_length]
  rw [hnil, hstate]
  rfl

theorem resolveRow_testResolver (ordFields ordResolved ordSQL : RangeOrder) (t : Table)
    (row : Row) (sym : SymbolTable) (log : List SinkCall) (l : List (String × Value))
    (hres : resolveFieldValues sym row.fields [] = .ok l) (hwf : (GoMap.mk l).WF)
    (hlit : ∀ e ∈ l, e.2.isResolveValue = false) :
    resolveRow (testResolver ordFields ordResolved ordSQL) t row (sym, ((), log)) =
      (none,
        ((match row.id with
          | none => sym
          | some id => registerRow sym t.name id l GoMap.nil),
          ((), log ++ [insertCall t.tableName (ordSQL.pick (ordFields.pick l))]))) := by
  unfold resolveRow
  simp only [hres]
  rw [testResolver_literal ordFields ordResolved ordSQL _ l hwf hlit log]
  cases row.id <;> rfl

theorem resolveRows_step {σ : Type} (f : RowResolver σ) (t : Table) (row : Row)
    (rows : List Row) (st st' : SymbolTable × σ) (h : resolveRow f t row st = (none, st')) :
    resolveRows f t (row :: rows) st = resolveRows f t rows st' := by
  simp only [resolveRows, h]

theorem resolveTables_step {σ : Type} (f : RowResolver σ) (t : Table) (ts : List Table)
    (st st' : SymbolTable × σ) (h : resolveRows f t t.rows st = (none, st')) :
    resolveTables f (t :: ts) st = resolveTables f ts st' := by
  simp only [resolveTables, h]

/-- The two rows of a table of `TestResolve` with the resolver of the test, when both rows
resolve to literal values. -/
theorem resolveRows_two (ordFields ordResolved ordSQL : RangeOrder) (t : Table)
    (r1 r2 : Row) (sym : SymbolTable) (log : List SinkCall) (l1 l2 : List (String × Value))
    (sym1 sym2 : SymbolTable)
    (h1 : resolveFieldValues sym r1.fields [] = .ok l1) (hwf1 : (GoMap.mk l1).WF)
    (hlit1 : ∀ e ∈ l1, e.2.isResolveValue = false)
    (hs1 : (match r1.id with
      | none => sym
      | some id => registerRow sym t.name id l1 GoMap.nil) = sym1)
    (h2 : resolveFieldValues sym1 r2.fields [] = .ok l2) (hwf2 : (GoMap.mk l2).WF)
    (hlit2 : ∀ e ∈ l2, e.2.isResolveValue = false)
    (hs2 : (match r2.id with
      | none => sym1
      | some id => registerRow sym1 t.name id l2 GoMap.nil) = sym2) :
    resolveRows (testResolver ordFields ordResolved ordSQL) t [r1, r2] (sym, ((), log)) =
      (none, (sym2, ((), log ++ [insertCall t.tableName (ordSQL.pick (ordFields.pick l1)),
        insertCall t.tableName (ordSQL.pick (ordFields.pick l2))]))) := by
  have e1 := resolveRow_testResolver ordFields ordResolved ordSQL t r1 sym log l1 h1 hwf1 hlit1
  rw [hs1] at e1
  have e2 := resolveRow_testResolver ordFields ordResolved ordSQL t r2 sym1
    (log ++ [insertCall t.tableName (ordSQL.pick (ordFields.pick l1))]) l2 h2 hwf2 hlit2
  rw [hs2] at e2
  rw [resolveRows_step _ t r1 [r2] _ _ e1, resolveRows_step _ t r2 [] _ _ e2]
  simp [resolveRows]

/-- The run of `TestResolve` for every order of the three loops over maps. -/
theorem Resolve_testResolveData (ordFields ordResolved ordSQL : RangeOrder) :
    Resolve testResolveData (testResolver ordFields ordResolved ordSQL) ((), []) =
      (none, ((),
        [ insertCall "public.tags" (ordSQL.pick (ordFields.pick
            [("tag_id", Value.uint 2), ("tag_name", Value.str "All")])),
          insertCall "public.tags" (ordSQL.pick (ordFields.pick
            [("tag_id", Value.uint 5), ("tag_name", Value.str "Half")])),
          insertCall "public.posts" (ordSQL.pick (ordFields.pick
            [("post_id", Value.uint 1), ("title", Value.str "First post")])),
          insertCall "public.posts" (ordSQL.pick (ordFields.pick
            [("post_id", Value.uint 2), ("title", Value.str "Second post")])),
          insertCall "public.post_tags" (ordSQL.pick (ordFields.pick
            [("post_id", Value.uint 1), ("tag_id", Value.uint 2)])),
          insertCall "public.post_tags" (ordSQL.pick (ordFields.pick
            [("post_id", Value.uint 2), ("tag_id", Value.uint 5)])) ])) := by
  have hord : orderTables testResolveData.length testResolveData [] = .ok testResolveData := by
    rfl
  have t1 := resolveRows_two ordFields ordResolved ordSQL tagsTable
    ⟨[("tag_id", .literal (Value.uint 2)), ("tag_name", .literal (Value.str "All"))],
      some "all"⟩
    ⟨[("tag_id", .literal (Value.uint 5)), ("tag_name", .literal (Value.str "Half"))],
      some "half"⟩
    [] [] [("tag_id", Value.uint 2), ("tag_name", Value.str "All")]
    [("tag_id", Value.uint 5), ("tag_name", Value.str "Half")]
    (testResolveSymbols.take 2) (testResolveSymbols.take 4)
    (by rfl) (by decide) (by decide) (by rfl) (by rfl) (by decide) (by decide) (by rfl)
  have t2 := resolveRows_two ordFields ordResolved ordSQL postsTable
    ⟨[("post_id", .literal (Value.uint 1)), ("title", .literal (Value.str "First post"))],
      some "post_1"⟩
    ⟨[("post_id", .literal (Value.uint 2)), ("title", .literal (Value.str "Second post"))],
      some "post_2"⟩
    (testResolveSymbols.take 4)
    ([] ++ [insertCall tagsTable.tableName (ordSQL.pick (ordFields.pick
        [("tag_id", Value.uint 2), ("tag_name", Value.str "All")])),
      insertCall tagsTable.tableName (ordSQL.pick (ordFields.pick
        [("tag_id", Value.uint 5), ("tag_name", Value.str "Half")]))])
    [("post_id", Value.uint 1), ("title", Value.str "First post")]
    [("post_id", Value.uint 2), ("title", Value.str "Second post")]
    (testResolveSymbols.take 6) testResolveSymbols
    (by rfl) (by decide) (by decide) (by rfl) (by rfl) (by decide) (by decide) (by rfl)
  have t3 := resolveRows_two ordFields ordResolved ordSQL postTagsTable
    ⟨[("post_id", .reference "posts" "post_1" "post_id"),
      ("tag_id", .reference "tags" "all" "tag_id")], none⟩
    ⟨[("post_id", .reference "posts" "post_2" "post_id"),
      ("tag_id", .reference "tags" "half" "tag_id")], none⟩
    testResolveSymbols
    (([] ++ [insertCall tagsTable.tableName (ordSQL.pick (ordFields.pick
        [("tag_id", Value.uint 2), ("tag_name", Value.str "All")])),
      insertCall tagsTable.tableName (ordSQL.pick (ordFields.pick
        [("tag_id", Value.uint 5), ("tag_name", Value.str "Half")]))]) ++
      [insertCall postsTable.tableName (ordSQL.pick (ordFields.pick
        [("post_id", Value.uint 1), ("title", Value.str "First post")])),
      insertCall postsTable.tableName (ordSQL.pick (ordFields.pick
        [("post_id", Value.uint 2), ("title", Value.str "Second post")]))])
    [("post_id", Value.uint 1), ("tag_id", Value.uint 2)]
    [("post_id", Value.uint 2), ("tag_id", Value.uint 5)]
    testResolveSymbols testResolveSymbols
    (by rfl) (by decide) (by decide) (by rfl) (by rfl) (by decide) (by decide) (by rfl)
  unfold Resolve
  simp only [hord]
  show ((resolveTables (testResolver ordFields ordResolved ordSQL)
    [tagsTable, postsTable, postTagsTable] ([], ((), []))).1,
    (resolveTables (testResolver ordFields ordResolved ordSQL)
    [tagsTable, postsTable, postTagsTable] ([], ((), []))).2.2) = _
  rw [resolveTables_step _ tagsTable _ _ _ t1, resolveTables_step _ postsTable _ _ _ t2,
    resolveTables_step _ postTagsTable _ _ _ t3]
  rfl

/-! ## Claims -/

/-- C1: for every (well-formed) field map, the function returned by `ResolverFunc` calls
the callback once, and every field whose value is the Generate variant (the
`*ResolveGenerate` the type switch names) is absent from the insert field set passed to the
callback while its name is in the list of field names to generate passed to it. -/
theorem ResolverFunc_generate_excluded {σ κ : Type} (ordFields ordResolved : RangeOrder)
    (cb : ResolverDBCallback σ) (C : ResolveContext κ) (ctx : κ) (fields : GoMap)
    (hwf : fields.WF) (s : σ) (log : List CallbackCall) :
    ∃ insertFields returnFieldNames,
      (ResolverFunc ordFields ordResolved (recordCallback cb) C ctx fields (s, log)).2.2.2 =
        log ++ [⟨C.TableName ctx, insertFields, returnFieldNames⟩] ∧
      ∀ fn, fields.get fn = some Value.generate →
        insertFields.get fn = none ∧ fn ∈ returnFieldNames := by
  refine ⟨GoMap.mk (classifyFields ordFields fields).1, (classifyFields ordFields fields).2,
    ResolverFunc_log ordFields ordResolved cb C ctx fields s log, ?_⟩
  intro fn hfn
  have hnd : ((ordFields.pick fields.entries).map Prod.fst).Nodup :=
    ((ordFields.perm fields.entries).map Prod.fst).nodup_iff.2 hwf
  have hmem : (fn, Value.generate) ∈ ordFields.pick fields.entries :=
    (ordFields.perm fields.entries).symm.subset (mem_of_lookup_eq_some _ _ _ hfn)
  rw [classifyFields_eq ordFields fields hwf]
  constructor
  · apply lookup_eq_none_of_not_mem
    intro hk
    obtain ⟨⟨k, v⟩, hkv, hkeq⟩ := List.mem_map.1 hk
    simp only at hkeq
    subst hkeq
    obtain ⟨hin, hlit⟩ := List.mem_filter.1 hkv
    have hv : v = Value.generate := value_unique_of_nodup _ hnd k v _ hin hmem
    subst hv
    simp [Value.isResolveValue] at hlit
  · exact List.mem_map.2 ⟨(fn, Value.generate),
      List.mem_filter.2 ⟨hmem, by simp [Value.isGeneratePtr]⟩, rfl⟩

/-- Witness of C1 on the first row of `TestResolveGenerated`: `tag_id` is generated. -/
theorem ResolverFunc_generate_excluded_witness :
    tagsGeneratedFields.WF ∧
    tagsGeneratedFields.get "tag_id" = some Value.generate ∧
    ∃ insertFields returnFieldNames,
      (ResolverFunc RangeOrder.declared RangeOrder.declared
        (recordCallback (SQLResolverDBCallback RangeOrder.declared generatedSink
          DefaultSQLBuilder.zero.iface))
        defaultResolveContext.iface tagsContext tagsGeneratedFields (115, [])).2.2.2 =
        [] ++ [⟨defaultResolveContext.iface.TableName tagsContext, insertFields,
          returnFieldNames⟩] ∧
      insertFields.get "tag_id" = none ∧ "tag_id" ∈ returnFieldNames :=
  ⟨by decide, by decide,
    match ResolverFunc_generate_excluded RangeOrder.declared RangeOrder.declared
      (SQLResolverDBCallback RangeOrder.declared generatedSink DefaultSQLBuilder.zero.iface)
      defaultResolveContext.iface tagsContext tagsGeneratedFields (by decide) 115 [] with
    | ⟨ins, rfn, hlog, h⟩ => ⟨ins, rfn, hlog, h "tag_id" (by decide)⟩⟩

/-- C2: the loop of `SQLResolverDBCallback` ranges over a Go map, so the statement follows
the iteration order of the run: for the fields `tag_id: 2, tag_name: "All"` of table
`public.tags` with `DefaultSQLBuilder{}`, the iteration that visits `tag_id` first gives the
sink the statement and arguments `TestResolve` expects, and the iteration of the same map
that visits `tag_name` first gives it another column order and another argument order. -/
theorem SQLResolverDBCallback_follows_range_order :
    (SQLResolverDBCallback RangeOrder.declared (recordSink nilSink)
        DefaultSQLBuilder.zero.iface "public.tags" tagsAllFields [] ((), [])).2.2 =
      [⟨"INSERT INTO public.tags (tag_id, tag_name) VALUES (?, ?)", [],
        [Value.uint 2, Value.str "All"]⟩] ∧
    (SQLResolverDBCallback RangeOrder.reversed (recordSink nilSink)
        DefaultSQLBuilder.zero.iface "public.tags" tagsAllFields [] ((), [])).2.2 =
      [⟨"INSERT INTO public.tags (tag_name, tag_id) VALUES (?, ?)", [],
        [Value.str "All", Value.uint 2]⟩] ∧
    (SQLResolverDBCallback RangeOrder.declared (recordSink nilSink)
        DefaultSQLBuilder.zero.iface "public.tags" tagsAllFields [] ((), [])).2.2 ≠
      (SQLResolverDBCallback RangeOrder.reversed (recordSink nilSink)
        DefaultSQLBuilder.zero.iface "public.tags" tagsAllFields [] ((), [])).2.2 := by
  refine ⟨by rfl, by rfl, by decide⟩

/-- C3: with no quoting hooks `DefaultSQLBuilder.BuildInsertSQL` builds exactly
`INSERT INTO t (F joined by ", ") VALUES (P joined by ", ")`, followed by ` RETURNING `
and `R` joined by `,` exactly when `R` is non-empty and by nothing when `R` is empty; for
`public.tags`, `[tag_name]`, `[?]`, `[tag_id]` this is the statement of
`TestResolveGenerated`. -/
theorem BuildInsertSQL_without_hooks (factory : Option (Unit → SQLPlaceholderProvider))
    (t : String) (F P R : List String) :
    DefaultSQLBuilder.BuildInsertSQL ⟨factory, none, none⟩ t F P R =
      "INSERT INTO " ++ t ++ " (" ++ stringsJoin F ", " ++ ") VALUES (" ++ stringsJoin P ", "
        ++ ")" ++ (if R = [] then "" else " RETURNING " ++ stringsJoin R ",") ∧
    DefaultSQLBuilder.BuildInsertSQL DefaultSQLBuilder.zero "public.tags" ["tag_name"] ["?"]
        ["tag_id"] =
      "INSERT INTO public.tags (tag_name) VALUES (?) RETURNING tag_id" := by
  refine ⟨?_, by rfl⟩
  cases R with
  | nil => simp [DefaultSQLBuilder.BuildInsertSQL]
  | cons a t => simp [DefaultSQLBuilder.BuildInsertSQL]

/-- C4: for every (well-formed) field set with `n` entries, `SQLResolverDBCallback` calls
`Next` on the placeholder provider exactly `n` times, gives the builder `n` field names and
`n` placeholders and the sink `n` arguments, lists each field of the set exactly once, and
at every position `i` the `i`-th argument carries (bare, or wrapped by `sql.Named`) the
value the field set maps the `i`-th field name to. -/
theorem SQLResolverDBCallback_one_placeholder_per_field {σ : Type} (order : RangeOrder)
    (db : QueryInterface σ) (B : SQLBuilder) (t : String) (fields : GoMap)
    (hwf : fields.WF) (R : List String) (s : σ) (log : List SinkCall) :
    ∃ c : Collected (B.CreatePlaceholderProvider ()).State,
      c = collectFields order (B.CreatePlaceholderProvider ()) fields ∧
      (SQLResolverDBCallback order (recordSink db) B t fields R (s, log)).2.2 =
        log ++ [⟨B.BuildInsertSQL t c.fieldNames c.fieldPlaceholders R, R, c.args⟩] ∧
      c.fieldNames.length = fields.len ∧ c.fieldPlaceholders.length = fields.len ∧
      c.args.length = fields.len ∧
      c.fieldNames.Perm fields.keys ∧
      (∀ (i : Nat) (fn : String), c.fieldNames[i]? = some fn →
        ∃ v, fields.get fn = some v ∧
          (c.args[i]? = some v ∨ ∃ nm, c.args[i]? = some (Value.named nm v))) ∧
      (collectFields order (countNext (B.CreatePlaceholderProvider ())) fields).provider.2 =
        fields.len ∧
      (collectFields order (countNext (B.CreatePlaceholderProvider ())) fields).fieldPlaceholders
        = c.fieldPlaceholders ∧
      (collectFields order (countNext (B.CreatePlaceholderProvider ())) fields).args = c.args := by
  refine ⟨_, rfl, SQLResolverDBCallback_log order db B t fields R s log, ?_⟩
  have hlen := pick_length order fields.entries
  rw [collectFields_eq, collectFields_eq]
  simp only
  refine ⟨?_, ?_, ?_, ?_, ?_, ?_, ?_, ?_⟩
  · simp [hlen, GoMap.len]
  · simp [length_nextResults, hlen, GoMap.len]
  · simp [length_nextResults, hlen, GoMap.len]
  · exact (order.perm fields.entries).map Prod.fst
  · intro i fn hi
    rw [List.getElem?_map] at hi
    cases he : (order.pick fields.entries)[i]? with
    | none => rw [he] at hi; simp at hi
    | some e =>
      rw [he] at hi
      simp only [Option.map_some', Option.some.injEq] at hi
      have hmem : e ∈ fields.entries :=
        (order.perm fields.entries).subset (List.getElem?_mem he)
      have hget : fields.get fn = some e.2 := by
        apply lookup_eq_some_of_mem _ hwf
        rw [← hi]
        exact hmem
      have hil : i < (order.pick fields.entries).length := by
        rcases List.getElem?_eq_some.1 he with ⟨h, _⟩
        exact h
      have hir : i < (nextResults (B.CreatePlaceholderProvider ()).Next
          (order.pick fields.entries).length (B.CreatePlaceholderProvider ()).init).length := by
        rw [length_nextResults]; exact hil
      have harg : (List.zipWith (fun r e => wrapArg r.2 e.2)
          (nextResults (B.CreatePlaceholderProvider ()).Next
            (order.pick fields.entries).length (B.CreatePlaceholderProvider ()).init)
          (order.pick fields.entries))[i]? =
          some (wrapArg ((nextResults (B.CreatePlaceholderProvider ()).Next
            (order.pick fields.entries).length
            (B.CreatePlaceholderProvider ()).init)[i]).2 e.2) := by
        rw [List.getElem?_zipWith_eq_some]
        exact ⟨_, e, List.getElem?_eq_getElem hir, he, rfl⟩
      refine ⟨e.2, hget, ?_⟩
      rw [harg]
      rcases wrapArg_cases ((nextResults (B.CreatePlaceholderProvider ()).Next
            (order.pick fields.entries).length
            (B.CreatePlaceholderProvider ()).init)[i]).2 e.2 with h | ⟨nm, h⟩
      · left; rw [h]
      · right; exact ⟨nm, by rw [h]⟩
  · have := nextState_countNext (B.CreatePlaceholderProvider ())
      (order.pick fields.entries).length (B.CreatePlaceholderProvider ()).init 0
    simpa [countNext, hlen, GoMap.len] using this
  · have := nextResults_countNext (B.CreatePlaceholderProvider ())
      (order.pick fields.entries).length (B.CreatePlaceholderProvider ()).init 0
    simpa [countNext] using congrArg (List.map Prod.fst) this
  · have := nextResults_countNext (B.CreatePlaceholderProvider ())
      (order.pick fields.entries).length (B.CreatePlaceholderProvider ()).init 0
    simp only [countNext] at this ⊢
    rw [this]

/-- Witness of C4 on the first row of `TestResolve`. -/
theorem SQLResolverDBCallback_one_placeholder_per_field_witness :
    tagsAllFields.WF ∧
    ∃ c : Collected (DefaultSQLBuilder.zero.iface.CreatePlaceholderProvider ()).State,
      c = collectFields RangeOrder.declared
        (DefaultSQLBuilder.zero.iface.CreatePlaceholderProvider ()) tagsAllFields ∧
      (SQLResolverDBCallback RangeOrder.declared (recordSink nilSink)
          DefaultSQLBuilder.zero.iface "public.tags" tagsAllFields [] ((), [])).2.2 =
        [] ++ [⟨DefaultSQLBuilder.zero.iface.BuildInsertSQL "public.tags" c.fieldNames
          c.fieldPlaceholders [], [], c.args⟩] ∧
      c.fieldNames.length = tagsAllFields.len ∧
      c.fieldPlaceholders.length = tagsAllFields.len ∧
      c.args.length = tagsAllFields.len ∧
      c.fieldNames.Perm tagsAllFields.keys ∧
      (∀ (i : Nat) (fn : String), c.fieldNames[i]? = some fn →
        ∃ v, tagsAllFields.get fn = some v ∧
          (c.args[i]? = some v ∨ ∃ nm, c.args[i]? = some (Value.named nm v))) ∧
      (collectFields RangeOrder.declared
        (countNext (DefaultSQLBuilder.zero.iface.CreatePlaceholderProvider ()))
        tagsAllFields).provider.2 = tagsAllFields.len ∧
      (collectFields RangeOrder.declared
        (countNext (DefaultSQLBuilder.zero.iface.CreatePlaceholderProvider ()))
        tagsAllFields).fieldPlaceholders = c.fieldPlaceholders ∧
      (collectFields RangeOrder.declared
        (countNext (DefaultSQLBuilder.zero.iface.CreatePlaceholderProvider ()))
        tagsAllFields).args = c.args :=
  ⟨by decide, SQLResolverDBCallback_one_placeholder_per_field RangeOrder.declared nilSink
    DefaultSQLBuilder.zero.iface "public.tags" tagsAllFields (by decide) [] () []⟩

/-- C5: for every (well-formed) field map with only literal values (no value is a
`ResolveValue`), the function returned by `ResolverFunc` passes the callback an insert
field set with the entries of the given map (same names, same values) and an empty list of
field names to generate; composed with `SQLResolverDBCallback` and a `DefaultSQLBuilder`,
the sink receives no requested name and the statement `BuildInsertSQL` builds from the
collected field names and the collected placeholders, which ends with the `VALUES (...)`
group of exactly these placeholders: no RETURNING clause. -/
theorem ResolverFunc_literal_passthrough {σ σ' κ : Type} (ordFields ordResolved ordSQL : RangeOrder)
    (cb : ResolverDBCallback σ) (db : QueryInterface σ') (d : DefaultSQLBuilder)
    (C : ResolveContext κ) (ctx : κ) (fields : GoMap) (hwf : fields.WF)
    (hlit : ∀ e ∈ fields.entries, e.2.isResolveValue = false)
    (s : σ) (log : List CallbackCall) (s' : σ') (sinkLog : List SinkCall) :
    ∃ insertFields : GoMap,
      insertFields = GoMap.mk (ordFields.pick fields.entries) ∧
      (ResolverFunc ordFields ordResolved (recordCallback cb) C ctx fields (s, log)).2.2.2 =
        log ++ [⟨C.TableName ctx, insertFields, []⟩] ∧
      insertFields.entries.Perm fields.entries ∧
      (∀ k, insertFields.get k = fields.get k) ∧
      (ResolverFunc ordFields ordResolved
        (SQLResolverDBCallback ordSQL (recordSink db) d.iface) C ctx fields
        (s', sinkLog)).2.2.2 =
        sinkLog ++ [⟨d.BuildInsertSQL (C.TableName ctx)
            (collectFields ordSQL (d.CreatePlaceholderProvider ()) insertFields).fieldNames
            (collectFields ordSQL (d.CreatePlaceholderProvider ())
              insertFields).fieldPlaceholders [],
          [], (collectFields ordSQL (d.CreatePlaceholderProvider ()) insertFields).args⟩] ∧
      d.BuildInsertSQL (C.TableName ctx)
          (collectFields ordSQL (d.CreatePlaceholderProvider ()) insertFields).fieldNames
          (collectFields ordSQL (d.CreatePlaceholderProvider ()) insertFields).fieldPlaceholders
          [] =
        "INSERT INTO " ++ (d.QuoteTable.getD id) (C.TableName ctx) ++ " ("
          ++ stringsJoin ((collectFields ordSQL (d.CreatePlaceholderProvider ())
            insertFields).fieldNames.map (d.QuoteField.getD id)) ", "
          ++ ") VALUES ("
          ++ stringsJoin (collectFields ordSQL (d.CreatePlaceholderProvider ())
            insertFields).fieldPlaceholders ", "
          ++ ")" ∧
      (collectFields ordSQL (d.CreatePlaceholderProvider ()) insertFields).fieldNames.Perm
        fields.keys ∧
      (collectFields ordSQL (d.CreatePlaceholderProvider ())
        insertFields).fieldPlaceholders.length = fields.len ∧
      (collectFields ordSQL (d.CreatePlaceholderProvider ()) insertFields).args.length =
        fields.len := by
  have hcf := classifyFields_literal ordFields fields hwf hlit
  have hl1 := pick_length ordFields fields.entries
  have hl2 := pick_length ordSQL (ordFields.pick fields.entries)
  refine ⟨GoMap.mk (ordFields.pick fields.entries), rfl, ?_, ordFields.perm fields.entries,
    ?_, ?_, BuildInsertSQL_no_return d _ _ _, ?_, ?_, ?_⟩
  · rw [ResolverFunc_log, hcf]
  · intro k
    exact lookup_perm (ordFields.perm fields.entries) hwf k
  · rw [ResolverFunc_state, SQLResolverDBCallback_log, hcf]
    rfl
  · rw [collectFields_eq]
    simp only [GoMap.entries]
    exact ((ordSQL.perm _).map Prod.fst).trans ((ordFields.perm fields.entries).map Prod.fst)
  · rw [collectFields_eq]
    simp only [List.length_map, length_nextResults]
    exact hl2.trans hl1
  · rw [collectFields_eq]
    simp only [List.length_zipWith, length_nextResults, Nat.min_self]
    exact hl2.trans hl1

/-- Witness of C5 on the first row of `TestResolve`: the callback receives the two fields
and no name to generate, and the sink receives the insert without RETURNING. -/
theorem ResolverFunc_literal_passthrough_witness :
    tagsAllFields.WF ∧ (∀ e ∈ tagsAllFields.entries, e.2.isResolveValue = false) ∧
    ∃ insertFields : GoMap,
      insertFields = GoMap.mk [("tag_id", Value.uint 2), ("tag_name", Value.str "All")] ∧
      (ResolverFunc RangeOrder.declared RangeOrder.declared
        (recordCallback (SQLResolverDBCallback RangeOrder.declared nilSink
          DefaultSQLBuilder.zero.iface))
        defaultResolveContext.iface tagsContext tagsAllFields ((), [])).2.2.2 =
        [] ++ [⟨"public.tags", insertFields, []⟩] ∧
      (ResolverFunc RangeOrder.declared RangeOrder.declared
        (SQLResolverDBCallback RangeOrder.declared (recordSink nilSink)
          DefaultSQLBuilder.zero.iface)
        defaultResolveContext.iface tagsContext tagsAllFields ((), [])).2.2.2 =
        [⟨"INSERT INTO public.tags (tag_id, tag_name) VALUES (?, ?)", [],
          [Value.uint 2, Value.str "All"]⟩] :=
  ⟨by decide, by decide,
    match ResolverFunc_literal_passthrough RangeOrder.declared RangeOrder.declared
      RangeOrder.declared
      (SQLResolverDBCallback RangeOrder.declared nilSink DefaultSQLBuilder.zero.iface)
      nilSink DefaultSQLBuilder.zero defaultResolveContext.iface
      tagsContext tagsAllFields (by decide) (by decide) () [] () [] with
    | ⟨ins, heq, hlog, _, _, hsink, _⟩ =>
      ⟨ins, heq, hlog, by subst heq; exact hsink⟩⟩

/-- C6: when the callback succeeds, the function returned by `ResolverFunc` returns no
error and registers every entry of the returned mapping: with a `defaultResolveContext`,
after the call the resolved map of the context holds `v` under `n` for every `(n, v)` of
the returned mapping. -/
theorem ResolverFunc_registers_returned {σ : Type} (ordFields ordResolved : RangeOrder)
    (cb : ResolverDBCallback σ) (ctx : defaultResolveContext) (fields : GoMap) (s : σ)
    (resolved : GoMap) (hwf : resolved.WF)
    (hcb : (cb ctx.tableName (GoMap.mk (classifyFields ordFields fields).1)
      (classifyFields ordFields fields).2 s).1 = (resolved, none)) :
    (ResolverFunc ordFields ordResolved cb defaultResolveContext.iface ctx fields s).1 = none ∧
    ∀ n v, (n, v) ∈ resolved.entries →
      (ResolverFunc ordFields ordResolved cb defaultResolveContext.iface ctx fields
        s).2.1.resolved.get n = some v := by
  constructor
  · rw [ResolverFunc_ok ordFields ordResolved cb defaultResolveContext.iface ctx fields s
      resolved hcb]
  · intro n v hnv
    rw [ResolverFunc_resolved_get ordFields ordResolved cb ctx fields s resolved hwf hcb n]
    have : resolved.get n = some v := lookup_eq_some_of_mem _ hwf n v hnv
    rw [this]

/-- Witness of C6 on the first row of `TestResolveGenerated`: the sink returns
`tag_id = 116` for row `all`, and 116 is the value registered for `tag_id`. -/
theorem ResolverFunc_registers_returned_witness :
    (GoMap.mk [("tag_id", Value.uint 116)]).WF ∧
    (SQLResolverDBCallback RangeOrder.declared generatedSink DefaultSQLBuilder.zero.iface
      tagsContext.tableName
      (GoMap.mk (classifyFields RangeOrder.declared tagsGeneratedFields).1)
      (classifyFields RangeOrder.declared tagsGeneratedFields).2 115).1 =
      (GoMap.mk [("tag_id", Value.uint 116)], none) ∧
    (ResolverFunc RangeOrder.declared RangeOrder.declared
      (SQLResolverDBCallback RangeOrder.declared generatedSink DefaultSQLBuilder.zero.iface)
      defaultResolveContext.iface tagsContext tagsGeneratedFields 115).1 = none ∧
    (ResolverFunc RangeOrder.declared RangeOrder.declared
      (SQLResolverDBCallback RangeOrder.declared generatedSink DefaultSQLBuilder.zero.iface)
      defaultResolveContext.iface tagsContext tagsGeneratedFields
      115).2.1.resolved.get "tag_id" = some (Value.uint 116) :=
  ⟨by decide, by rfl,
    (ResolverFunc_registers_returned RangeOrder.declared RangeOrder.declared
      (SQLResolverDBCallback RangeOrder.declared generatedSink DefaultSQLBuilder.zero.iface)
      tagsContext tagsGeneratedFields 115 (GoMap.mk [("tag_id", Value.uint 116)])
      (by decide) (by rfl)).1,
    (ResolverFunc_registers_returned RangeOrder.declared RangeOrder.declared
      (SQLResolverDBCallback RangeOrder.declared generatedSink DefaultSQLBuilder.zero.iface)
      tagsContext tagsGeneratedFields 115 (GoMap.mk [("tag_id", Value.uint 116)])
      (by decide) (by rfl)).2 "tag_id" (Value.uint 116) (by decide)⟩

/-- C7: for every callback result without error, whether or not it covers the requested
field names, the function returned by `ResolverFunc` returns no error and registers only
the fields actually returned: a returned name gets the returned value, every other name
(a requested name that was not returned included) keeps what the context held, and a nil
or empty mapping leaves the context as it was. -/
theorem ResolverFunc_partial_result {σ : Type} (ordFields ordResolved : RangeOrder)
    (cb : ResolverDBCallback σ) (ctx : defaultResolveContext) (fields : GoMap) (s : σ)
    (resolved : GoMap) (hwf : resolved.WF)
    (hcb : (cb ctx.tableName (GoMap.mk (classifyFields ordFields fields).1)
      (classifyFields ordFields fields).2 s).1 = (resolved, none)) :
    (ResolverFunc ordFields ordResolved cb defaultResolveContext.iface ctx fields s).1 = none ∧
    (∀ k, (ResolverFunc ordFields ordResolved cb defaultResolveContext.iface ctx fields
        s).2.1.resolved.get k =
      match resolved.get k with
      | some v => some v
      | none => ctx.resolved.get k) ∧
    (∀ fn ∈ (classifyFields ordFields fields).2, resolved.get fn = none →
      (ResolverFunc ordFields ordResolved cb defaultResolveContext.iface ctx fields
        s).2.1.resolved.get fn = ctx.resolved.get fn) ∧
    (resolved.entries = [] →
      (ResolverFunc ordFields ordResolved cb defaultResolveContext.iface ctx fields s).2.1
        = ctx) := by
  refine ⟨?_, ?_, ?_, ?_⟩
  · rw [ResolverFunc_ok ordFields ordResolved cb defaultResolveContext.iface ctx fields s
      resolved hcb]
  · exact ResolverFunc_resolved_get ordFields ordResolved cb ctx fields s resolved hwf hcb
  · intro fn _ hnone
    rw [ResolverFunc_resolved_get ordFields ordResolved cb ctx fields s resolved hwf hcb fn,
      hnone]
  · intro hempty
    rw [ResolverFunc_ok ordFields ordResolved cb defaultResolveContext.iface ctx fields s
      resolved hcb]
    have : ordResolved.pick resolved.entries = [] := by
      have hl := (ordResolved.perm resolved.entries).length_eq
      rw [hempty] at hl
      rw [hempty]
      exact List.length_eq_zero.1 hl
    simp only [this, List.foldl_nil]

/-- Witness of C7: the sink of `TestResolve` returns a nil mapping although `tag_id` was
requested. -/
theorem ResolverFunc_partial_result_witness :
    GoMap.nil.WF ∧
    (SQLResolverDBCallback RangeOrder.declared nilSink DefaultSQLBuilder.zero.iface
      tagsContext.tableName
      (GoMap.mk (classifyFields RangeOrder.declared tagsGeneratedFields).1)
      (classifyFields RangeOrder.declared tagsGeneratedFields).2 ()).1 = (GoMap.nil, none) ∧
    "tag_id" ∈ (classifyFields RangeOrder.declared tagsGeneratedFields).2 ∧
    (ResolverFunc RangeOrder.declared RangeOrder.declared
      (SQLResolverDBCallback RangeOrder.declared nilSink DefaultSQLBuilder.zero.iface)
      defaultResolveContext.iface tagsContext tagsGeneratedFields ()).1 = none ∧
    (ResolverFunc RangeOrder.declared RangeOrder.declared
      (SQLResolverDBCallback RangeOrder.declared nilSink DefaultSQLBuilder.zero.iface)
      defaultResolveContext.iface tagsContext tagsGeneratedFields ()).2.1 = tagsContext :=
  ⟨by decide, by rfl, by decide,
    (ResolverFunc_partial_result RangeOrder.declared RangeOrder.declared
      (SQLResolverDBCallback RangeOrder.declared nilSink DefaultSQLBuilder.zero.iface)
      tagsContext tagsGeneratedFields () GoMap.nil (by decide) (by rfl)).1,
    (ResolverFunc_partial_result RangeOrder.declared RangeOrder.declared
      (SQLResolverDBCallback RangeOrder.declared nilSink DefaultSQLBuilder.zero.iface)
      tagsContext tagsGeneratedFields () GoMap.nil (by decide) (by rfl)).2.2.2 rfl⟩

/-- C8: for every error `e` returned by the sink's `Query`, `SQLResolverDBCallback` returns a
nil mapping together with exactly `e` (even when the sink returned a mapping along with the
error), and the function returned by `ResolverFunc` composed with it returns exactly `e`,
leaves the context as it was, and has called the sink exactly once. -/
theorem sink_error_propagated {σ κ : Type} (ordFields ordResolved ordSQL : RangeOrder)
    (db : QueryInterface σ) (B : SQLBuilder) (t : String) (F : GoMap) (R : List String)
    (C : ResolveContext κ) (ctx : κ) (fields : GoMap) (s : σ) (log : List SinkCall)
    (e : GoError) :
    ((queryCall ordSQL db B t F R s).1.2 = some e →
      SQLResolverDBCallback ordSQL db B t F R s =
        ((GoMap.nil, some e), (queryCall ordSQL db B t F R s).2)) ∧
    (∃ call, (SQLResolverDBCallback ordSQL (recordSink db) B t F R (s, log)).2.2 =
      log ++ [call]) ∧
    ((queryCall ordSQL db B (C.TableName ctx)
        (GoMap.mk (classifyFields ordFields fields).1) (classifyFields ordFields fields).2
        s).1.2 = some e →
      ResolverFunc ordFields ordResolved (SQLResolverDBCallback ordSQL db B) C ctx fields s =
        (some e, ctx, (queryCall ordSQL db B (C.TableName ctx)
          (GoMap.mk (classifyFields ordFields fields).1) (classifyFields ordFields fields).2
          s).2)) ∧
    (∃ call, (ResolverFunc ordFields ordResolved
      (SQLResolverDBCallback ordSQL (recordSink db) B) C ctx fields (s, log)).2.2.2 =
      log ++ [call]) := by
  refine ⟨SQLResolverDBCallback_err ordSQL db B t F R s e,
    ⟨_, SQLResolverDBCallback_log ordSQL db B t F R s log⟩, ?_, ?_⟩
  · intro h2
    have hcb := SQLResolverDBCallback_err ordSQL db B (C.TableName ctx)
      (GoMap.mk (classifyFields ordFields fields).1) (classifyFields ordFields fields).2 s e h2
    have herr : (SQLResolverDBCallback ordSQL db B (C.TableName ctx)
        (GoMap.mk (classifyFields ordFields fields).1) (classifyFields ordFields fields).2
        s).1.2 = some e := by rw [hcb]
    rw [ResolverFunc_err ordFields ordResolved _ C ctx fields s e herr, hcb]
  · exact ⟨_, by rw [ResolverFunc_state, SQLResolverDBCallback_log]⟩

/-- Witness of C8: a sink that fails on the first row of `TestResolve`. -/
theorem sink_error_propagated_witness :
    (queryCall RangeOrder.declared (failingSink ⟨"connection refused"⟩)
      DefaultSQLBuilder.zero.iface "public.tags" tagsAllFields [] ()).1.2 =
      some ⟨"connection refused"⟩ ∧
    (queryCall RangeOrder.declared (failingSink ⟨"connection refused"⟩)
      DefaultSQLBuilder.zero.iface (defaultResolveContext.iface.TableName tagsContext)
      (GoMap.mk (classifyFields RangeOrder.declared tagsAllFields).1)
      (classifyFields RangeOrder.declared tagsAllFields).2 ()).1.2 =
      some ⟨"connection refused"⟩ ∧
    SQLResolverDBCallback RangeOrder.declared (failingSink ⟨"connection refused"⟩)
      DefaultSQLBuilder.zero.iface "public.tags" tagsAllFields [] () =
      ((GoMap.nil, some ⟨"connection refused"⟩), ()) ∧
    ResolverFunc RangeOrder.declared RangeOrder.declared
      (SQLResolverDBCallback RangeOrder.declared (failingSink ⟨"connection refused"⟩)
        DefaultSQLBuilder.zero.iface)
      defaultResolveContext.iface tagsContext tagsAllFields () =
      (some ⟨"connection refused"⟩, tagsContext, ()) :=
  ⟨by rfl, by rfl,
    (sink_error_propagated RangeOrder.declared RangeOrder.declared RangeOrder.declared
      (failingSink ⟨"connection refused"⟩) DefaultSQLBuilder.zero.iface "public.tags"
      tagsAllFields [] defaultResolveContext.iface tagsContext tagsAllFields () []
      ⟨"connection refused"⟩).1 (by rfl),
    (sink_error_propagated RangeOrder.declared RangeOrder.declared RangeOrder.declared
      (failingSink ⟨"connection refused"⟩) DefaultSQLBuilder.zero.iface "public.tags"
      tagsAllFields [] defaultResolveContext.iface tagsContext tagsAllFields () []
      ⟨"connection refused"⟩).2.2.1 (by rfl)⟩

/-- C9: `DefaultSQLBuilder.BuildInsertSQL` passes the table name through `QuoteTable` and
the column list through `QuoteField`, and writes the RETURNING names as given: with a
`QuoteField` hook that brackets names, `tag_name` is quoted in the column list and `tag_id`
is not in the RETURNING clause, so the statement differs from the one the hook-free builder
builds for the quoted names. -/
theorem BuildInsertSQL_returning_not_quoted :
    DefaultSQLBuilder.BuildInsertSQL ⟨none, none, some bracketQuote⟩ "public.tags"
        ["tag_name"] ["?"] ["tag_id"] =
      "INSERT INTO public.tags ([tag_name]) VALUES (?) RETURNING tag_id" ∧
    DefaultSQLBuilder.BuildInsertSQL ⟨none, none, none⟩ "public.tags"
        (["tag_name"].map bracketQuote) ["?"] (["tag_id"].map bracketQuote) =
      "INSERT INTO public.tags ([tag_name]) VALUES (?) RETURNING [tag_id]" ∧
    DefaultSQLBuilder.BuildInsertSQL ⟨none, none, some bracketQuote⟩ "public.tags"
        ["tag_name"] ["?"] ["tag_id"] ≠
      DefaultSQLBuilder.BuildInsertSQL ⟨none, none, none⟩ "public.tags"
        (["tag_name"].map bracketQuote) ["?"] (["tag_id"].map bracketQuote) := by
  refine ⟨by rfl, by rfl, by decide⟩

/-- C10: with a `DefaultSQLBuilder` whose `PlaceholderProviderFactory` is nil, every call of
`Next` returns the token `?` and an empty argument name; so for every field set every
placeholder given to the builder is `?` and the arguments handed to the sink are the raw
values of the fields, in the order of the field names, none wrapped by `sql.Named`. -/
theorem default_provider_positional {σ : Type} (qt qf : Option (String → String))
    (order : RangeOrder) (db : QueryInterface σ) (t : String) (fields : GoMap)
    (R : List String) (s : σ) (log : List SinkCall) :
    (∀ st, ((DefaultSQLBuilder.CreatePlaceholderProvider ⟨none, qt, qf⟩ ()).Next st).1 =
      ("?", "")) ∧
    (SQLResolverDBCallback order (recordSink db) (DefaultSQLBuilder.iface ⟨none, qt, qf⟩) t
        fields R (s, log)).2.2 =
      log ++ [⟨DefaultSQLBuilder.BuildInsertSQL ⟨none, qt, qf⟩ t
          ((order.pick fields.entries).map Prod.fst)
          (List.replicate fields.len "?") R,
        R, (order.pick fields.entries).map Prod.snd⟩] := by
  constructor
  · intro st; rfl
  · rw [SQLResolverDBCallback_log]
    obtain ⟨h1, h2, h3⟩ := collectFields_default order fields
    show log ++ [⟨DefaultSQLBuilder.BuildInsertSQL ⟨none, qt, qf⟩ t
        (collectFields order defaultSQLPlaceholderProvider fields).fieldNames
        (collectFields order defaultSQLPlaceholderProvider fields).fieldPlaceholders R, R,
        (collectFields order defaultSQLPlaceholderProvider fields).args⟩] = _
    rw [h1, h2, h3]

/-- C11: for every placeholder provider and every field set, with `e` the `i`-th entry
visited by the loop and `r` the result of the `i`-th call of `Next`, the `i`-th field name
given to the builder is the name of `e`, the `i`-th placeholder is the token of `r`, and the
`i`-th argument given to the sink is `sql.Named(argName, value)` when the argument name of
`r` is not empty and the bare value of `e` when it is empty. -/
theorem SQLResolverDBCallback_placeholder_per_call {σ : Type} (order : RangeOrder)
    (db : QueryInterface σ) (B : SQLBuilder) (t : String) (fields : GoMap)
    (R : List String) (s : σ) (log : List SinkCall) :
    ∃ (names placeholders : List String) (args : List Value),
      (SQLResolverDBCallback order (recordSink db) B t fields R (s, log)).2.2 =
        log ++ [⟨B.BuildInsertSQL t names placeholders R, R, args⟩] ∧
      names = (collectFields order (B.CreatePlaceholderProvider ()) fields).fieldNames ∧
      placeholders =
        (collectFields order (B.CreatePlaceholderProvider ()) fields).fieldPlaceholders ∧
      args = (collectFields order (B.CreatePlaceholderProvider ()) fields).args ∧
      (nextResults (B.CreatePlaceholderProvider ()).Next fields.len
        (B.CreatePlaceholderProvider ()).init).length = fields.len ∧
      ∀ (i : Nat) (e : String × Value) (r : String × String),
        (order.pick fields.entries)[i]? = some e →
        (nextResults (B.CreatePlaceholderProvider ()).Next fields.len
          (B.CreatePlaceholderProvider ()).init)[i]? = some r →
        names[i]? = some e.1 ∧ placeholders[i]? = some r.1 ∧
        (r.2 ≠ "" → args[i]? = some (Value.named r.2 e.2)) ∧
        (r.2 = "" → args[i]? = some e.2) := by
  refine ⟨_, _, _, SQLResolverDBCallback_log order db B t fields R s log, rfl, rfl, rfl,
    length_nextResults _ _ _, ?_⟩
  intro i e r he hr
  rw [collectFields_eq]
  simp only [pick_length, GoMap.len] at hr ⊢
  have harg : (List.zipWith (fun (r : String × String) (e : String × Value) =>
      wrapArg r.2 e.2)
      (nextResults (B.CreatePlaceholderProvider ()).Next fields.entries.length
        (B.CreatePlaceholderProvider ()).init)
      (order.pick fields.entries))[i]? = some (wrapArg r.2 e.2) := by
    rw [List.getElem?_zipWith_eq_some]
    exact ⟨r, e, hr, he, rfl⟩
  refine ⟨by simp [he], by simp [hr], ?_, ?_⟩
  · intro hne
    rw [harg]
    simp [wrapArg, hne]
  · intro heq
    rw [harg]
    simp [wrapArg, heq]

/-- Witness of C11: the second field of the first row of `TestResolve` with a provider of
named parameters. -/
theorem SQLResolverDBCallback_placeholder_per_call_witness :
    (RangeOrder.declared.pick tagsAllFields.entries)[1]? = some ("tag_name", Value.str "All") ∧
    (nextResults (numberedBuilder.iface.CreatePlaceholderProvider ()).Next tagsAllFields.len
      (numberedBuilder.iface.CreatePlaceholderProvider ()).init)[1]? = some ("@p1", "p1") ∧
    ("p1" : String) ≠ "" ∧
    ∃ (names placeholders : List String) (args : List Value),
      (SQLResolverDBCallback RangeOrder.declared (recordSink nilSink) numberedBuilder.iface
        "public.tags" tagsAllFields [] ((), [])).2.2 =
        [] ++ [⟨numberedBuilder.iface.BuildInsertSQL "public.tags" names placeholders [], [],
          args⟩] ∧
      names[1]? = some "tag_name" ∧ placeholders[1]? = some "@p1" ∧
      args[1]? = some (Value.named "p1" (Value.str "All")) :=
  ⟨by rfl, by rfl, by decide,
    match SQLResolverDBCallback_placeholder_per_call RangeOrder.declared nilSink
      numberedBuilder.iface "public.tags" tagsAllFields [] () [] with
    | ⟨n, p, a, hlog, _, _, _, _, h⟩ =>
      ⟨n, p, a, hlog, (h 1 ("tag_name", Value.str "All") ("@p1", "p1") (by rfl) (by rfl)).1,
        (h 1 ("tag_name", Value.str "All") ("@p1", "p1") (by rfl) (by rfl)).2.1,
        (h 1 ("tag_name", Value.str "All") ("@p1", "p1") (by rfl) (by rfl)).2.2.1
          (by decide)⟩⟩

/-- C12 (counterexample): a sink may report a name that was not requested, and
`SQLResolverDBCallback` hands its mapping on: with no requested name at all the returned
mapping holds `row_count`, and the function returned by `ResolverFunc` registers it. -/
theorem SQLResolverDBCallback_returns_unrequested :
    ¬ (∀ k ∈ (SQLResolverDBCallback RangeOrder.declared extraSink DefaultSQLBuilder.zero.iface
        "public.tags" tagsAllFields [] ()).1.1.keys, k ∈ ([] : List String)) ∧
    (classifyFields RangeOrder.declared tagsAllFields).2 = [] ∧
    (ResolverFunc RangeOrder.declared RangeOrder.declared
      (SQLResolverDBCallback RangeOrder.declared extraSink DefaultSQLBuilder.zero.iface)
      defaultResolveContext.iface tagsContext tagsAllFields ()).2.1.resolved.get "row_count" =
      some (Value.uint 1) := by
  refine ⟨by decide, by rfl, by rfl⟩

/-- C12 (amended): for every sink the mapping returned by `SQLResolverDBCallback` is the
mapping of the sink unchanged, or nil after an error of the sink; so it includes at most the
requested return field names whenever the mapping of the sink does, and then the function
returned by `ResolverFunc` leaves every name that was not requested as the context held
it. -/
theorem SQLResolverDBCallback_mapping_from_sink {σ : Type}
    (ordFields ordResolved ordSQL : RangeOrder) (db : QueryInterface σ) (B : SQLBuilder)
    (t : String) (F : GoMap) (R : List String) (ctx : defaultResolveContext) (fields : GoMap)
    (s : σ) :
    ((SQLResolverDBCallback ordSQL db B t F R s).1.1 =
      match (queryCall ordSQL db B t F R s).1.2 with
      | some _ => GoMap.nil
      | none => (queryCall ordSQL db B t F R s).1.1) ∧
    ((∀ k ∈ (queryCall ordSQL db B t F R s).1.1.keys, k ∈ R) →
      ∀ k ∈ (SQLResolverDBCallback ordSQL db B t F R s).1.1.keys, k ∈ R) ∧
    ((∀ k ∈ (queryCall ordSQL db B ctx.tableName
        (GoMap.mk (classifyFields ordFields fields).1) (classifyFields ordFields fields).2
        s).1.1.keys, k ∈ (classifyFields ordFields fields).2) →
      (queryCall ordSQL db B ctx.tableName
        (GoMap.mk (classifyFields ordFields fields).1) (classifyFields ordFields fields).2
        s).1.1.WF →
      ∀ k, k ∉ (classifyFields ordFields fields).2 →
        (ResolverFunc ordFields ordResolved (SQLResolverDBCallback ordSQL db B)
          defaultResolveContext.iface ctx fields s).2.1.resolved.get k =
          ctx.resolved.get k) := by
  refine ⟨SQLResolverDBCallback_mapping ordSQL db B t F R s, ?_, ?_⟩
  · intro h1
    rw [SQLResolverDBCallback_mapping]
    cases h : (queryCall ordSQL db B t F R s).1.2 with
    | none => exact h1
    | some e => intro k hk; simp [GoMap.keys, GoMap.entries] at hk
  · intro h2 hwf k hk
    cases h : (queryCall ordSQL db B ctx.tableName
      (GoMap.mk (classifyFields ordFields fields).1) (classifyFields ordFields fields).2
      s).1.2 with
    | none =>
      have hcb := SQLResolverDBCallback_ok ordSQL db B ctx.tableName
        (GoMap.mk (classifyFields ordFields fields).1) (classifyFields ordFields fields).2 s h
      have hcb1 : (SQLResolverDBCallback ordSQL db B ctx.tableName
          (GoMap.mk (classifyFields ordFields fields).1) (classifyFields ordFields fields).2
          s).1 = ((queryCall ordSQL db B ctx.tableName
          (GoMap.mk (classifyFields ordFields fields).1) (classifyFields ordFields fields).2
          s).1.1, none) := by rw [hcb]
      rw [ResolverFunc_resolved_get ordFields ordResolved _ ctx fields s _ hwf hcb1 k,
        lookup_eq_none_of_keys_subset _ _ h2 k hk]
    | some e =>
      have hcb := SQLResolverDBCallback_err ordSQL db B ctx.tableName
        (GoMap.mk (classifyFields ordFields fields).1) (classifyFields ordFields fields).2 s e h
      have herr : (SQLResolverDBCallback ordSQL db B
          (defaultResolveContext.iface.TableName ctx)
          (GoMap.mk (classifyFields ordFields fields).1) (classifyFields ordFields fields).2
          s).1.2 = some e := by
        show (SQLResolverDBCallback ordSQL db B ctx.tableName _ _ s).1.2 = some e
        rw [hcb]
      rw [ResolverFunc_err ordFields ordResolved _ defaultResolveContext.iface ctx fields s e
        herr]

/-- Witness of C12 (amended) on the first row of `TestResolveGenerated`, whose sink reports
`tag_id` only when it is requested. -/
theorem SQLResolverDBCallback_mapping_from_sink_witness :
    (∀ k ∈ (queryCall RangeOrder.declared generatedSink DefaultSQLBuilder.zero.iface
      "public.tags" (GoMap.mk [("tag_name", Value.str "All")]) ["tag_id"] 115).1.1.keys,
      k ∈ ["tag_id"]) ∧
    (∀ k ∈ (queryCall RangeOrder.declared generatedSink DefaultSQLBuilder.zero.iface
      tagsContext.tableName
      (GoMap.mk (classifyFields RangeOrder.declared tagsGeneratedFields).1)
      (classifyFields RangeOrder.declared tagsGeneratedFields).2 115).1.1.keys,
      k ∈ (classifyFields RangeOrder.declared tagsGeneratedFields).2) ∧
    (queryCall RangeOrder.declared generatedSink DefaultSQLBuilder.zero.iface
      tagsContext.tableName
      (GoMap.mk (classifyFields RangeOrder.declared tagsGeneratedFields).1)
      (classifyFields RangeOrder.declared tagsGeneratedFields).2 115).1.1.WF ∧
    (∀ k ∈ (SQLResolverDBCallback RangeOrder.declared generatedSink
      DefaultSQLBuilder.zero.iface "public.tags" (GoMap.mk [("tag_name", Value.str "All")])
      ["tag_id"] 115).1.1.keys, k ∈ ["tag_id"]) ∧
    "tag_name" ∉ (classifyFields RangeOrder.declared tagsGeneratedFields).2 ∧
    (ResolverFunc RangeOrder.declared RangeOrder.declared
      (SQLResolverDBCallback RangeOrder.declared generatedSink DefaultSQLBuilder.zero.iface)
      defaultResolveContext.iface tagsContext tagsGeneratedFields
      115).2.1.resolved.get "tag_name" = tagsContext.resolved.get "tag_name" :=
  ⟨by decide, by decide, by decide,
    (SQLResolverDBCallback_mapping_from_sink RangeOrder.declared RangeOrder.declared
      RangeOrder.declared generatedSink DefaultSQLBuilder.zero.iface "public.tags"
      (GoMap.mk [("tag_name", Value.str "All")]) ["tag_id"] tagsContext tagsGeneratedFields
      115).2.1 (by decide),
    by decide,
    (SQLResolverDBCallback_mapping_from_sink RangeOrder.declared RangeOrder.declared
      RangeOrder.declared generatedSink DefaultSQLBuilder.zero.iface "public.tags"
      (GoMap.mk [("tag_name", Value.str "All")]) ["tag_id"] tagsContext tagsGeneratedFields
      115).2.2 (by decide) (by decide) "tag_name" (by decide)⟩

/-- C13: `ResolveField` on a `defaultResolveContext` registers the value: for every context
state (a nil resolved map included), field name `f` and value `v`, afterwards the resolved
map holds `v` under `f`, every other name keeps the value it had, every name registered
before is still registered, and `TableID` and `TableName` are unchanged. -/
theorem ResolveField_registers (d : defaultResolveContext) (f : String) (v : Value) :
    (d.ResolveField f v).resolved.get f = some v ∧
    (∀ k, k ≠ f → (d.ResolveField f v).resolved.get k = d.resolved.get k) ∧
    (∀ k, k ∈ d.resolved.keys → k ∈ (d.ResolveField f v).resolved.keys) ∧
    (d.resolved = GoMap.nil → (d.ResolveField f v).resolved = GoMap.mk [(f, v)]) ∧
    (d.ResolveField f v).TableID = d.TableID ∧
    (d.ResolveField f v).TableName = d.TableName := by
  refine ⟨?_, ?_, ?_, ?_, rfl, rfl⟩
  · rw [get_ResolveField]; simp
  · intro k hk
    rw [get_ResolveField]; simp [hk]
  · intro k hk
    unfold defaultResolveContext.ResolveField
    simp only [GoMap.keys, GoMap.entries]
    apply mem_keys_setEntry
    by_cases hn : d.resolved = GoMap.nil
    · rw [hn] at hk
      simp [GoMap.keys, GoMap.entries] at hk
    · simpa [hn, GoMap.keys] using hk
  · intro hn
    unfold defaultResolveContext.ResolveField
    simp [hn, GoMap.entries, setEntry]

/-- Witness of C13: registering `tag_name` in a context that holds `tag_id = 116`, and in a
context whose resolved map is nil. -/
theorem ResolveField_registers_witness :
    "tag_id" ≠ "tag_name" ∧
    "tag_id" ∈ (GoMap.mk [("tag_id", Value.uint 116)]).keys ∧
    tagsContext.resolved = GoMap.nil ∧
    ((⟨"tags", "public.tags", GoMap.mk [("tag_id", Value.uint 116)]⟩ :
      defaultResolveContext).ResolveField "tag_name" (Value.str "All")).resolved.get "tag_id" =
      some (Value.uint 116) ∧
    "tag_id" ∈ ((⟨"tags", "public.tags", GoMap.mk [("tag_id", Value.uint 116)]⟩ :
      defaultResolveContext).ResolveField "tag_name" (Value.str "All")).resolved.keys ∧
    (tagsContext.ResolveField "tag_id" (Value.uint 116)).resolved =
      GoMap.mk [("tag_id", Value.uint 116)] :=
  ⟨by decide, by decide, rfl,
    ((ResolveField_registers ⟨"tags", "public.tags", GoMap.mk [("tag_id", Value.uint 116)]⟩
      "tag_name" (Value.str "All")).2.1 "tag_id" (by decide)).trans (by rfl),
    (ResolveField_registers ⟨"tags", "public.tags", GoMap.mk [("tag_id", Value.uint 116)]⟩
      "tag_name" (Value.str "All")).2.2.1 "tag_id" (by decide),
    (ResolveField_registers tagsContext "tag_id" (Value.uint 116)).2.2.2.1 rfl⟩

/-- C15: whenever the callback returns an error (with or without a mapping), the function
returned by `ResolverFunc` returns that error and the context as it was: with a context that
counts the calls of `ResolveField` the count is unchanged, and the resolved map of a
`defaultResolveContext` after the call equals the one before it. -/
theorem ResolverFunc_error_leaves_context {σ κ : Type} (ordFields ordResolved : RangeOrder)
    (cb : ResolverDBCallback σ) (C : ResolveContext κ) (ctx : κ) (fields : GoMap) (s : σ)
    (e : GoError) (n : Nat) (d : defaultResolveContext)
    (h : (cb (C.TableName ctx) (GoMap.mk (classifyFields ordFields fields).1)
      (classifyFields ordFields fields).2 s).1.2 = some e)
    (hd : (cb d.tableName (GoMap.mk (classifyFields ordFields fields).1)
      (classifyFields ordFields fields).2 s).1.2 = some e) :
    (ResolverFunc ordFields ordResolved cb C ctx fields s).1 = some e ∧
    (ResolverFunc ordFields ordResolved cb C ctx fields s).2.1 = ctx ∧
    (ResolverFunc ordFields ordResolved cb (countResolveField C) (ctx, n) fields s).2.1 =
      (ctx, n) ∧
    (ResolverFunc ordFields ordResolved cb defaultResolveContext.iface d fields
      s).2.1.resolved = d.resolved := by
  refine ⟨?_, ?_, ?_, ?_⟩
  · rw [ResolverFunc_err ordFields ordResolved cb C ctx fields s e h]
  · rw [ResolverFunc_err ordFields ordResolved cb C ctx fields s e h]
  · rw [ResolverFunc_err ordFields ordResolved cb (countResolveField C) (ctx, n) fields s e h]
  · rw [ResolverFunc_err ordFields ordResolved cb defaultResolveContext.iface d fields s e hd]

/-- Witness of C15: a sink that fails (and returns a mapping) on the first row of
`TestResolveGenerated`. -/
theorem ResolverFunc_error_leaves_context_witness :
    (SQLResolverDBCallback RangeOrder.declared (failingSink ⟨"connection refused"⟩)
      DefaultSQLBuilder.zero.iface (defaultResolveContext.iface.TableName tagsContext)
      (GoMap.mk (classifyFields RangeOrder.declared tagsGeneratedFields).1)
      (classifyFields RangeOrder.declared tagsGeneratedFields).2 ()).1.2 =
      some ⟨"connection refused"⟩ ∧
    (ResolverFunc RangeOrder.declared RangeOrder.declared
      (SQLResolverDBCallback RangeOrder.declared (failingSink ⟨"connection refused"⟩)
        DefaultSQLBuilder.zero.iface)
      defaultResolveContext.iface tagsContext tagsGeneratedFields ()).1 =
      some ⟨"connection refused"⟩ ∧
    (ResolverFunc RangeOrder.declared RangeOrder.declared
      (SQLResolverDBCallback RangeOrder.declared (failingSink ⟨"connection refused"⟩)
        DefaultSQLBuilder.zero.iface)
      (countResolveField defaultResolveContext.iface) (tagsContext, 0) tagsGeneratedFields
      ()).2.1 = (tagsContext, 0) ∧
    (ResolverFunc RangeOrder.declared RangeOrder.declared
      (SQLResolverDBCallback RangeOrder.declared (failingSink ⟨"connection refused"⟩)
        DefaultSQLBuilder.zero.iface)
      defaultResolveContext.iface tagsContext tagsGeneratedFields ()).2.1.resolved =
      tagsContext.resolved :=
  ⟨by rfl,
    (ResolverFunc_error_leaves_context RangeOrder.declared RangeOrder.declared
      (SQLResolverDBCallback RangeOrder.declared (failingSink ⟨"connection refused"⟩)
        DefaultSQLBuilder.zero.iface)
      defaultResolveContext.iface tagsContext tagsGeneratedFields () ⟨"connection refused"⟩ 0
      tagsContext (by rfl) (by rfl)).1,
    (ResolverFunc_error_leaves_context RangeOrder.declared RangeOrder.declared
      (SQLResolverDBCallback RangeOrder.declared (failingSink ⟨"connection refused"⟩)
        DefaultSQLBuilder.zero.iface)
      defaultResolveContext.iface tagsContext tagsGeneratedFields () ⟨"connection refused"⟩ 0
      tagsContext (by rfl) (by rfl)).2.2.1,
    (ResolverFunc_error_leaves_context RangeOrder.declared RangeOrder.declared
      (SQLResolverDBCallback RangeOrder.declared (failingSink ⟨"connection refused"⟩)
        DefaultSQLBuilder.zero.iface)
      defaultResolveContext.iface tagsContext tagsGeneratedFields () ⟨"connection refused"⟩ 0
      tagsContext (by rfl) (by rfl)).2.2.2⟩

/-- C16: `SQLResolverDBCallback` dispatches exactly what it built: the statement given to
the sink is the result of the builder's `BuildInsertSQL` for the given table name, the
collected field names, the collected placeholders and the given return field names; the
return field names given to the sink are the given list (all this whatever the sink
returns); and when the sink returns no error the mapping returned to the caller is the
mapping of the sink, with a nil error. -/
theorem SQLResolverDBCallback_dispatches_built {σ : Type} (order : RangeOrder)
    (db : QueryInterface σ) (B : SQLBuilder) (t : String) (F : GoMap) (R : List String)
    (s : σ) (log : List SinkCall) :
    (SQLResolverDBCallback order (recordSink db) B t F R (s, log)).2.2 =
      log ++ [⟨B.BuildInsertSQL t
          (collectFields order (B.CreatePlaceholderProvider ()) F).fieldNames
          (collectFields order (B.CreatePlaceholderProvider ()) F).fieldPlaceholders R,
        R, (collectFields order (B.CreatePlaceholderProvider ()) F).args⟩] ∧
    ((db.Query
      (B.BuildInsertSQL t (collectFields order (B.CreatePlaceholderProvider ()) F).fieldNames
        (collectFields order (B.CreatePlaceholderProvider ()) F).fieldPlaceholders R)
      R (collectFields order (B.CreatePlaceholderProvider ()) F).args s).1.2 = none →
      (SQLResolverDBCallback order db B t F R s).1 =
        ((db.Query
          (B.BuildInsertSQL t
            (collectFields order (B.CreatePlaceholderProvider ()) F).fieldNames
            (collectFields order (B.CreatePlaceholderProvider ()) F).fieldPlaceholders R)
          R (collectFields order (B.CreatePlaceholderProvider ()) F).args s).1.1, none)) := by
  refine ⟨SQLResolverDBCallback_log order db B t F R s log, ?_⟩
  intro h
  have hq : (queryCall order db B t F R s).1.2 = none := h
  rw [SQLResolverDBCallback_ok order db B t F R s hq]
  rfl

/-- Witness of C16: the sink of `TestResolveGenerated` asked for `tag_id`. -/
theorem SQLResolverDBCallback_dispatches_built_witness :
    (generatedSink.Query "INSERT INTO public.tags (tag_name) VALUES (?) RETURNING tag_id"
      ["tag_id"] [Value.str "All"] 115).1.2 = none ∧
    (SQLResolverDBCallback RangeOrder.declared (recordSink generatedSink)
      DefaultSQLBuilder.zero.iface "public.tags" (GoMap.mk [("tag_name", Value.str "All")])
      ["tag_id"] (115, [])).2.2 =
      [⟨"INSERT INTO public.tags (tag_name) VALUES (?) RETURNING tag_id", ["tag_id"],
        [Value.str "All"]⟩] ∧
    (SQLResolverDBCallback RangeOrder.declared generatedSink DefaultSQLBuilder.zero.iface
      "public.tags" (GoMap.mk [("tag_name", Value.str "All")]) ["tag_id"] 115).1 =
      (GoMap.mk [("tag_id", Value.uint 116)], none) :=
  ⟨by rfl,
    (SQLResolverDBCallback_dispatches_built RangeOrder.declared generatedSink
      DefaultSQLBuilder.zero.iface "public.tags" (GoMap.mk [("tag_name", Value.str "All")])
      ["tag_id"] 115 []).1,
    (SQLResolverDBCallback_dispatches_built RangeOrder.declared generatedSink
      DefaultSQLBuilder.zero.iface "public.tags" (GoMap.mk [("tag_name", Value.str "All")])
      ["tag_id"] 115 []).2 (by rfl)⟩

/-- C17: in the function returned by `ResolverFunc`, a field whose value implements
`ResolveValue` but is not a `*ResolveGenerate` (such as a `ResolveGenerate` held by value) is
placed neither in the insert field set nor in the list of field names to generate, and no
error is raised for it: the returned error is the one of the callback. -/
theorem ResolverFunc_drops_other_resolve_values {σ κ : Type}
    (ordFields ordResolved : RangeOrder) (cb : ResolverDBCallback σ) (C : ResolveContext κ)
    (ctx : κ) (fields : GoMap) (hwf : fields.WF) (s : σ) (log : List CallbackCall)
    (fn : String) (v : Value) (hget : fields.get fn = some v)
    (hrv : v.isResolveValue = true) (hnp : v.isGeneratePtr = false) :
    ∃ insertFields returnFieldNames,
      (ResolverFunc ordFields ordResolved (recordCallback cb) C ctx fields (s, log)).2.2.2 =
        log ++ [⟨C.TableName ctx, insertFields, returnFieldNames⟩] ∧
      insertFields.get fn = none ∧ fn ∉ insertFields.keys ∧ fn ∉ returnFieldNames ∧
      (ResolverFunc ordFields ordResolved cb C ctx fields s).1 =
        (cb (C.TableName ctx) insertFields returnFieldNames s).1.2 := by
  have hnd := pick_nodup ordFields fields hwf
  have hmem : (fn, v) ∈ ordFields.pick fields.entries :=
    (ordFields.perm fields.entries).symm.subset (mem_of_lookup_eq_some _ _ _ hget)
  have hkeys : fn ∉ ((classifyFields ordFields fields).1).map Prod.fst := by
    rw [classifyFields_eq ordFields fields hwf]
    intro hk
    obtain ⟨⟨k, w⟩, hkw, hkeq⟩ := List.mem_map.1 hk
    simp only at hkeq
    subst hkeq
    obtain ⟨hin, hlit⟩ := List.mem_filter.1 hkw
    have hv : w = v := value_unique_of_nodup _ hnd k w v hin hmem
    subst hv
    simp [hrv] at hlit
  refine ⟨GoMap.mk (classifyFields ordFields fields).1, (classifyFields ordFields fields).2,
    ResolverFunc_log ordFields ordResolved cb C ctx fields s log,
    lookup_eq_none_of_not_mem _ _ hkeys, hkeys, ?_,
    ResolverFunc_error ordFields ordResolved cb C ctx fields s⟩
  rw [classifyFields_eq ordFields fields hwf]
  intro hk
  obtain ⟨⟨k, w⟩, hkw, hkeq⟩ := List.mem_map.1 hk
  simp only at hkeq
  subst hkeq
  obtain ⟨hin, hg⟩ := List.mem_filter.1 hkw
  have hv : w = v := value_unique_of_nodup _ hnd k w v hin hmem
  subst hv
  simp only at hg
  rw [hnp] at hg
  cases hg

/-- Witness of C17: `tag_id` holds a `ResolveGenerate` by value; the sink of `TestResolve`
receives an insert of `tag_name` alone, without RETURNING. -/
theorem ResolverFunc_drops_other_resolve_values_witness :
    tagsStructFields.WF ∧
    tagsStructFields.get "tag_id" = some Value.generateStruct ∧
    Value.generateStruct.isResolveValue = true ∧
    Value.generateStruct.isGeneratePtr = false ∧
    ∃ insertFields returnFieldNames,
      (ResolverFunc RangeOrder.declared RangeOrder.declared
        (recordCallback (SQLResolverDBCallback RangeOrder.declared nilSink
          DefaultSQLBuilder.zero.iface))
        defaultResolveContext.iface tagsContext tagsStructFields ((), [])).2.2.2 =
        [] ++ [⟨defaultResolveContext.iface.TableName tagsContext, insertFields,
          returnFieldNames⟩] ∧
      insertFields.get "tag_id" = none ∧ "tag_id" ∉ insertFields.keys ∧
      "tag_id" ∉ returnFieldNames ∧
      (ResolverFunc RangeOrder.declared RangeOrder.declared
        (SQLResolverDBCallback RangeOrder.declared nilSink DefaultSQLBuilder.zero.iface)
        defaultResolveContext.iface tagsContext tagsStructFields ()).1 =
        (SQLResolverDBCallback RangeOrder.declared nilSink DefaultSQLBuilder.zero.iface
          (defaultResolveContext.iface.TableName tagsContext) insertFields returnFieldNames
          ()).1.2 :=
  ⟨by decide, by decide, rfl, rfl,
    ResolverFunc_drops_other_resolve_values RangeOrder.declared RangeOrder.declared
      (SQLResolverDBCallback RangeOrder.declared nilSink DefaultSQLBuilder.zero.iface)
      defaultResolveContext.iface tagsContext tagsStructFields (by decide) () []
      "tag_id" Value.generateStruct (by decide) rfl rfl⟩

/-- C18: for every (well-formed) field map the two outputs of the classification of
`ResolverFunc` are sound and disjoint: every entry of the insert field set is an entry of the
given map whose value is not a `ResolveValue`; every name in the list of field names to
generate is a key of the given map whose value is a `*ResolveGenerate`, and occurs in the
list exactly once; no name is in both. -/
theorem ResolverFunc_classification_sound {σ κ : Type} (ordFields ordResolved : RangeOrder)
    (cb : ResolverDBCallback σ) (C : ResolveContext κ) (ctx : κ) (fields : GoMap)
    (hwf : fields.WF) (s : σ) (log : List CallbackCall) :
    ∃ insertFields returnFieldNames,
      (ResolverFunc ordFields ordResolved (recordCallback cb) C ctx fields (s, log)).2.2.2 =
        log ++ [⟨C.TableName ctx, insertFields, returnFieldNames⟩] ∧
      insertFields.WF ∧
      (∀ e ∈ insertFields.entries, e ∈ fields.entries ∧ fields.get e.1 = some e.2 ∧
        e.2.isResolveValue = false) ∧
      (∀ fn ∈ returnFieldNames, ∃ v, fields.get fn = some v ∧ v.isGeneratePtr = true ∧
        v = Value.generate ∧ returnFieldNames.count fn = 1) ∧
      (∀ fn, fn ∈ insertFields.keys → fn ∉ returnFieldNames) := by
  have hnd := pick_nodup ordFields fields hwf
  have hsub : ∀ e ∈ ordFields.pick fields.entries, e ∈ fields.entries :=
    fun e he => (ordFields.perm fields.entries).subset he
  refine ⟨GoMap.mk (classifyFields ordFields fields).1, (classifyFields ordFields fields).2,
    ResolverFunc_log ordFields ordResolved cb C ctx fields s log, ?_⟩
  rw [classifyFields_eq ordFields fields hwf]
  have hgen : ∀ fn ∈ ((ordFields.pick fields.entries).filter
      (fun e => e.2.isGeneratePtr)).map Prod.fst,
      (fn, Value.generate) ∈ ordFields.pick fields.entries := by
    intro fn hfn
    obtain ⟨⟨k, w⟩, hkw, hkeq⟩ := List.mem_map.1 hfn
    simp only at hkeq
    subst hkeq
    obtain ⟨hin, hg⟩ := List.mem_filter.1 hkw
    simp only at hg
    have hw : w = Value.generate := by
      cases w <;> simp_all [Value.isGeneratePtr]
    rw [← hw]
    exact hin
  refine ⟨?_, ?_, ?_, ?_⟩
  · exact hnd.sublist ((List.filter_sublist _).map Prod.fst)
  · intro e he
    obtain ⟨hin, hlit⟩ := List.mem_filter.1 he
    refine ⟨hsub e hin, lookup_eq_some_of_mem _ hwf e.1 e.2 (hsub e hin), ?_⟩
    simpa using hlit
  · intro fn hfn
    refine ⟨Value.generate, lookup_eq_some_of_mem _ hwf fn _ (hsub _ (hgen fn hfn)), rfl, rfl,
      ?_⟩
    apply List.count_eq_one_of_mem _ hfn
    exact hnd.sublist ((List.filter_sublist _).map Prod.fst)
  · intro fn hins hret
    obtain ⟨⟨k, w⟩, hkw, hkeq⟩ := List.mem_map.1 hins
    simp only at hkeq
    subst hkeq
    obtain ⟨hin, hlit⟩ := List.mem_filter.1 hkw
    have hw : w = Value.generate :=
      value_unique_of_nodup _ hnd k w _ hin (hgen k hret)
    subst hw
    simp [Value.isResolveValue] at hlit

/-- Witness of C18 on the first row of `TestResolveGenerated`. -/
theorem ResolverFunc_classification_sound_witness :
    tagsGeneratedFields.WF ∧
    ∃ insertFields returnFieldNames,
      (ResolverFunc RangeOrder.declared RangeOrder.declared
        (recordCallback (SQLResolverDBCallback RangeOrder.declared generatedSink
          DefaultSQLBuilder.zero.iface))
        defaultResolveContext.iface tagsContext tagsGeneratedFields (115, [])).2.2.2 =
        [] ++ [⟨defaultResolveContext.iface.TableName tagsContext, insertFields,
          returnFieldNames⟩] ∧
      insertFields.WF ∧
      (∀ e ∈ insertFields.entries, e ∈ tagsGeneratedFields.entries ∧
        tagsGeneratedFields.get e.1 = some e.2 ∧ e.2.isResolveValue = false) ∧
      (∀ fn ∈ returnFieldNames, ∃ v, tagsGeneratedFields.get fn = some v ∧
        v.isGeneratePtr = true ∧ v = Value.generate ∧ returnFieldNames.count fn = 1) ∧
      (∀ fn, fn ∈ insertFields.keys → fn ∉ returnFieldNames) :=
  ⟨by decide, ResolverFunc_classification_sound RangeOrder.declared RangeOrder.declared
    (SQLResolverDBCallback RangeOrder.declared generatedSink DefaultSQLBuilder.zero.iface)
    defaultResolveContext.iface tagsContext tagsGeneratedFields (by decide) 115 []⟩

/-- C19: `RowToMap` calls `Scan` of the row exactly once, with exactly `len(cols)`
destinations; if `Scan` returns an error `e` the result is a nil map and `e`; otherwise, for
pairwise distinct column names `cols`, the returned map has exactly the keys `cols` and maps
`cols[i]` to the value `Scan` stored in the `i`-th destination. -/
theorem RowToMap_scans_once {ρ : Type} (cols : List String) (row : RowInterface ρ) (r : ρ)
    (log : List Nat) :
    (RowToMap cols (recordScan row) (r, log)).2.2 = log ++ [cols.length] ∧
    (∀ e, (row.Scan (List.replicate cols.length Value.null) r).1.2 = some e →
      (RowToMap cols row r).1 = (GoMap.nil, some e)) ∧
    ((row.Scan (List.replicate cols.length Value.null) r).1.2 = none → cols.Nodup →
      ∃ m, (RowToMap cols row r).1 = (m, none) ∧ m ≠ GoMap.nil ∧ m.keys = cols ∧
        ∀ (i : Nat) (c : String), cols[i]? = some c →
          m.get c = some ((row.Scan (List.replicate cols.length Value.null) r).1.1.getD i
            Value.null)) := by
  refine ⟨?_, ?_, ?_⟩
  · unfold RowToMap
    simp only [recordScan]
    split <;> simp
  · intro e he
    unfold RowToMap
    simp only [he]
  · intro hok hnd
    have hnd0 : (([] : List (String × Value)).map Prod.fst ++ cols).Nodup := by simpa using hnd
    refine ⟨GoMap.mk (scannedEntries
      (row.Scan (List.replicate cols.length Value.null) r).1.1 cols 0), ?_, ?_, ?_, ?_⟩
    · unfold RowToMap
      simp only [hok]
      rw [fillMap_eq _ cols 0 [] hnd0]
      simp
    · intro h; cases h
    · simp [GoMap.keys, GoMap.entries, keys_scannedEntries]
    · intro i c hc
      have := lookup_scannedEntries
        (row.Scan (List.replicate cols.length Value.null) r).1.1 cols 0 i c hnd hc
      simpa [GoMap.get, GoMap.entries] using this

/-- Witness of C19: a row holding `116, "All"` scanned into the columns `tag_id, tag_name`,
and the same row scanned into one column, which `Scan` refuses. -/
theorem RowToMap_scans_once_witness :
    ((valuesRow [Value.uint 116, Value.str "All"]).Scan
      (List.replicate ["tag_id"].length Value.null) ()).1.2 =
      some ⟨"sql: wrong number of destination arguments in Scan"⟩ ∧
    (RowToMap ["tag_id"] (valuesRow [Value.uint 116, Value.str "All"]) ()).1 =
      (GoMap.nil, some ⟨"sql: wrong number of destination arguments in Scan"⟩) ∧
    ((valuesRow [Value.uint 116, Value.str "All"]).Scan
      (List.replicate ["tag_id", "tag_name"].length Value.null) ()).1.2 = none ∧
    ["tag_id", "tag_name"].Nodup ∧
    ∃ m, (RowToMap ["tag_id", "tag_name"] (valuesRow [Value.uint 116, Value.str "All"])
        ()).1 = (m, none) ∧ m ≠ GoMap.nil ∧ m.keys = ["tag_id", "tag_name"] ∧
      m.get "tag_name" = some (Value.str "All") :=
  ⟨by rfl,
    (RowToMap_scans_once ["tag_id"] (valuesRow [Value.uint 116, Value.str "All"]) ()
      []).2.1 _ (by rfl),
    by rfl, by decide,
    match (RowToMap_scans_once ["tag_id", "tag_name"]
      (valuesRow [Value.uint 116, Value.str "All"]) () []).2.2 (by rfl) (by decide) with
    | ⟨m, h1, h2, h3, h4⟩ => ⟨m, h1, h2, h3, (h4 1 "tag_name" (by rfl)).trans (by rfl)⟩⟩

/-- C20 (counterexample): for an insert that yields no result row `SQLQueryInterface.Query`
returns the error `no records`, not a nil error. -/
theorem SQLQueryInterface_Query_no_rows_is_error :
    (SQLQueryInterface.Query ⟨emptyResultDB⟩
      "INSERT INTO public.tags (tag_id, tag_name) VALUES (?, ?)"
      [Value.uint 2, Value.str "All"] ()).1 = (GoMap.nil, some ⟨"no records"⟩) ∧
    (SQLQueryInterface.Query ⟨emptyResultDB⟩
      "INSERT INTO public.tags (tag_id, tag_name) VALUES (?, ?)"
      [Value.uint 2, Value.str "All"] ()).1.2 ≠ none := by
  refine ⟨by rfl, by decide⟩

/-- C20 (amended): when the statement is executed without error and yields no result row
(`rows.Next()` is false), `SQLQueryInterface.Query` returns a nil mapping together with the
error `no records`, and the cursor is closed. -/
theorem SQLQueryInterface_Query_no_rows {δ ρ : Type} (q : SQLQueryInterface δ ρ)
    (query : String) (args : List Value) (s : δ)
    (hq : (q.DB.Query query args s).1.2 = none)
    (hn : (q.DB.rows.Next (q.DB.Query query args s).1.1).1 = false) :
    q.Query query args s =
      ((GoMap.nil, some ⟨"no records"⟩),
        ((q.DB.Query query args s).2,
          some (q.DB.rows.Close (q.DB.rows.Next (q.DB.Query query args s).1.1).2))) := by
  unfold SQLQueryInterface.Query
  simp only [hq, hn]
  rfl

/-- Witness of C20 (amended) on a database whose statements yield no row. -/
theorem SQLQueryInterface_Query_no_rows_witness :
    (emptyResultDB.Query "INSERT INTO public.tags (tag_id, tag_name) VALUES (?, ?)"
      [Value.uint 2, Value.str "All"] ()).1.2 = none ∧
    (emptyResultDB.rows.Next (emptyResultDB.Query
      "INSERT INTO public.tags (tag_id, tag_name) VALUES (?, ?)"
      [Value.uint 2, Value.str "All"] ()).1.1).1 = false ∧
    SQLQueryInterface.Query ⟨emptyResultDB⟩
      "INSERT INTO public.tags (tag_id, tag_name) VALUES (?, ?)"
      [Value.uint 2, Value.str "All"] () =
      ((GoMap.nil, some ⟨"no records"⟩), ((), some true)) :=
  ⟨rfl, rfl,
    SQLQueryInterface_Query_no_rows ⟨emptyResultDB⟩
      "INSERT INTO public.tags (tag_id, tag_name) VALUES (?, ?)"
      [Value.uint 2, Value.str "All"] () rfl rfl⟩

/-- C14: the run of `TestResolve` (engine modelled from the spec, resolver and SQL callback
from the source).  For every order of the loops over maps there is no error and the sink
receives six inserts, tags rows, then posts rows, then post_tags rows, each table's rows in
declared order, the post_tags rows binding `post_id, tag_id` to `1, 2` and to `2, 5`; within
one statement the columns and arguments follow the iteration order of the run.  When the
loops visit the fields as declared the sink receives the list `TestResolve` expects, with
post_tags arguments `(1,2)` and `(2,5)`; when the loop of `SQLResolverDBCallback` visits
`tag_id` first the post_tags arguments are `(2,1)` and `(5,2)`. -/
theorem Resolve_TestResolve_end_to_end :
    (∀ ordFields ordResolved ordSQL : RangeOrder,
      ∃ r1 r2 r3 r4 r5 r6 : List (String × Value),
        Resolve testResolveData (testResolver ordFields ordResolved ordSQL) ((), []) =
          (none, ((),
            [insertCall "public.tags" r1, insertCall "public.tags" r2,
              insertCall "public.posts" r3, insertCall "public.posts" r4,
              insertCall "public.post_tags" r5, insertCall "public.post_tags" r6])) ∧
        r1.Perm [("tag_id", Value.uint 2), ("tag_name", Value.str "All")] ∧
        r2.Perm [("tag_id", Value.uint 5), ("tag_name", Value.str "Half")] ∧
        r3.Perm [("post_id", Value.uint 1), ("title", Value.str "First post")] ∧
        r4.Perm [("post_id", Value.uint 2), ("title", Value.str "Second post")] ∧
        r5.Perm [("post_id", Value.uint 1), ("tag_id", Value.uint 2)] ∧
        r6.Perm [("post_id", Value.uint 2), ("tag_id", Value.uint 5)]) ∧
    Resolve testResolveData
        (testResolver RangeOrder.declared RangeOrder.declared RangeOrder.declared) ((), []) =
      (none, ((),
        [ ⟨"INSERT INTO public.tags (tag_id, tag_name) VALUES (?, ?)", [],
            [Value.uint 2, Value.str "All"]⟩,
          ⟨"INSERT INTO public.tags (tag_id, tag_name) VALUES (?, ?)", [],
            [Value.uint 5, Value.str "Half"]⟩,
          ⟨"INSERT INTO public.posts (post_id, title) VALUES (?, ?)", [],
            [Value.uint 1, Value.str "First post"]⟩,
          ⟨"INSERT INTO public.posts (post_id, title) VALUES (?, ?)", [],
            [Value.uint 2, Value.str "Second post"]⟩,
          ⟨"INSERT INTO public.post_tags (post_id, tag_id) VALUES (?, ?)", [],
            [Value.uint 1, Value.uint 2]⟩,
          ⟨"INSERT INTO public.post_tags (post_id, tag_id) VALUES (?, ?)", [],
            [Value.uint 2, Value.uint 5]⟩ ])) ∧
    (Resolve testResolveData
        (testResolver RangeOrder.declared RangeOrder.declared RangeOrder.reversed)
        ((), [])).2.2.drop 4 =
      [ ⟨"INSERT INTO public.post_tags (tag_id, post_id) VALUES (?, ?)", [],
          [Value.uint 2, Value.uint 1]⟩,
        ⟨"INSERT INTO public.post_tags (tag_id, post_id) VALUES (?, ?)", [],
          [Value.uint 5, Value.uint 2]⟩ ] := by
  refine ⟨?_, by rfl, by rfl⟩
  intro ordFields ordResolved ordSQL
  exact ⟨_, _, _, _, _, _, Resolve_testResolveData ordFields ordResolved ordSQL,
    (ordSQL.perm _).trans (ordFields.perm _), (ordSQL.perm _).trans (ordFields.perm _),
    (ordSQL.perm _).trans (ordFields.perm _), (ordSQL.perm _).trans (ordFields.perm _),
    (ordSQL.perm _).trans (ordFields.perm _), (ordSQL.perm _).trans (ordFields.perm _)⟩

end Debefix
